/-
Verification of the Refigma plugin's token resolution engine, color codec,
scene-graph builder, content-application engine and generation orchestrator,
as a shallow embedding of the TypeScript sources
(`refigma-plugin/src/tokens.ts` and the plugin main module).
-/
import Mathlib

set_option linter.unusedVariables false

namespace Refigma

/-! ## TokenResolver (tokens.ts lines 5-60)

The token schema itself (`tokens.json`) is data loaded at startup and is not
part of the sources; `getColor` is therefore embedded parametrically in the
schema.  JS objects keyed by strings are modelled as association lists, and a
property access on `undefined` (which would throw in JS) is modelled by
`Option.none` as the result. -/

/-- A color group in the token schema: either a single hex string or a
shade-to-hex mapping (spec §3, `colors`). -/
inductive ColorGroup where
  | single (hex : String)
  | shades (m : List (String × String))
deriving DecidableEq, Repr

/-- `colors`: theme name → color-group name → group. -/
abbrev ColorSchema := List (String × List (String × ColorGroup))

/-- First-match association-list lookup, the model of JS object property
access / the `in` operator on plain data objects. -/
def alookup {α : Type} (l : List (String × α)) (k : String) : Option α :=
  match l with
  | [] => none
  | (k', v) :: t => if k' = k then some v else alookup t k

/-- `DEFAULT_THEME = 'light'` (tokens.ts line 5). -/
def DEFAULT_THEME : String := "light"

/-- `DEFAULT_COLOR = '#000000'` (tokens.ts line 6). -/
def DEFAULT_COLOR : String := "#000000"

/-- `tokens.colors[theme] ? theme : DEFAULT_THEME` (tokens.ts line 31). -/
def resolvedThemeName (colors : ColorSchema) (theme : String) : String :=
  if (alookup colors theme).isSome then theme else DEFAULT_THEME

/-- Model of JS `String.prototype.split('/')`: split at every `/`, keeping
empty fields (`''.split('/') = ['']`). -/
def splitSlashAux : List Char → List Char → List String
  | [], acc => [String.mk acc.reverse]
  | c :: t, acc =>
    if c = '/' then String.mk acc.reverse :: splitSlashAux t []
    else splitSlashAux t (c :: acc)

/-- `token.split('/')` (tokens.ts line 30). -/
def splitSlash (s : String) : List String := splitSlashAux s.data []

/-- `const [groupName, shade = ''] = token.split('/')`, first component. -/
def groupNameOf (token : String) : String := (splitSlash token).headD ""

/-- `const [groupName, shade = ''] = token.split('/')`, second component
(defaulting to the empty string when absent). -/
def shadeOf (token : String) : String := ((splitSlash token).drop 1).headD ""

/-- `getColor(theme, token)` (tokens.ts lines 29-54), parametric in the
schema.  `none` models the JS `TypeError` that property access on an
`undefined` theme entry would raise; every other outcome is `some`. -/
def getColor? (colors : ColorSchema) (theme token : String) : Option String :=
  match alookup colors (resolvedThemeName colors theme) with
  | none => none
  | some themeColors =>
    match alookup themeColors (groupNameOf token) with
    | none => some DEFAULT_COLOR
    | some (.single s) => some s
    | some (.shades m) =>
      match (if shadeOf token = "" then alookup m "500" else none) with
      | some v => some v
      | none =>
        match alookup m (shadeOf token) with
        | some v => some v
        | none => some DEFAULT_COLOR

/-- `INTER_STYLES` (tokens.ts lines 11-16): threshold table in descending
weight order. -/
def INTER_STYLES : List (Int × String) :=
  [(700, "Bold"), (600, "Semi Bold"), (500, "Medium"), (0, "Regular")]

/-- The loop body of `resolveInterFont` (tokens.ts lines 18-27): starting
from the last entry, pick the first entry whose threshold is ≤ the weight. -/
def pickInterStyle (weight : Int) : Int × String :=
  go INTER_STYLES
where
  go : List (Int × String) → Int × String
    | [] => (0, "Regular")
    | option :: rest => if option.1 ≤ weight then option else go rest

/-- `resolveInterFont(weight).style`; the family is a schema constant and is
not modelled. -/
def resolveInterFont (weight : Int) : String := (pickInterStyle weight).2

/-- Threshold selected by `resolveInterFont` for a given weight. -/
def selectedThreshold (weight : Int) : Int := (pickInterStyle weight).1

/-- Schema modelled from the spec: `tokens.json` is not among the sources, so
this is a concrete schema of the shape spec §3 describes (theme → group →
single hex or shade map), used for concrete witnesses. -/
def demoColors : ColorSchema :=
  [ ("light",
      [ ("primary", .shades [("50", "#EEF2FF"), ("500", "#6366F1"), ("600", "#4F46E5")])
      , ("neutral", .shades [("50", "#F8FAFC"), ("900", "#0F172A")])
      , ("surface", .single "#FFFFFF") ])
  , ("dark",
      [ ("primary", .shades [("500", "#818CF8")]) ]) ]

example : getColor? demoColors "light" "primary/500" = some "#6366F1" := by decide
example : getColor? demoColors "light" "primary" = some "#6366F1" := by decide
example : getColor? demoColors "light" "primary/900" = some "#000000" := by decide
example : getColor? demoColors "dark-unknown" "primary/500" = some "#6366F1" := by decide
example : getColor? demoColors "light" "surface/500" = some "#FFFFFF" := by decide
example : getColor? demoColors "light" "missing/1" = some "#000000" := by decide
example : resolveInterFont 650 = "Semi Bold" := by decide
example : resolveInterFont (-3) = "Regular" := by decide
example : selectedThreshold 700 = 700 := by decide

/-- Values reachable from a schema: every single-string group value and every
shade-map entry value. -/
def groupValues : ColorGroup → List String
  | .single s => [s]
  | .shades m => m.map Prod.snd

/-- All color values appearing anywhere in a schema's `colors`. -/
def schemaColorValues (colors : ColorSchema) : List String :=
  (colors.map fun p => (p.2.map fun q => groupValues q.2).join).join

lemma alookup_mem {α : Type} {l : List (String × α)} {k : String} {v : α}
    (h : alookup l k = some v) : (k, v) ∈ l := by
  induction l with
  | nil => simp [alookup] at h
  | cons hd t ih =>
    obtain ⟨k', v'⟩ := hd
    by_cases hk : k' = k
    · subst hk
      simp [alookup] at h
      simp [h]
    · simp [alookup, hk] at h
      exact List.mem_cons_of_mem _ (ih h)

lemma mem_schemaColorValues {colors : ColorSchema} {θ : String}
    {tc : List (String × ColorGroup)} {gname : String} {g : ColorGroup}
    {v : String} (ht : (θ, tc) ∈ colors) (hg : (gname, g) ∈ tc)
    (hv : v ∈ groupValues g) : v ∈ schemaColorValues colors := by
  simp only [schemaColorValues, List.mem_join, List.mem_map]
  exact ⟨_, ⟨_, ht, rfl⟩, by
    simp only [List.mem_join, List.mem_map]
    exact ⟨_, ⟨_, hg, rfl⟩, hv⟩⟩

lemma resolvedThemeName_default (colors : ColorSchema) :
    resolvedThemeName colors DEFAULT_THEME = DEFAULT_THEME := by
  unfold resolvedThemeName
  split <;> rfl

lemma alookup_resolvedTheme_isSome (colors : ColorSchema) (theme : String)
    (hdef : (alookup colors DEFAULT_THEME).isSome) :
    (alookup colors (resolvedThemeName colors theme)).isSome := by
  unfold resolvedThemeName
  by_cases h : (alookup colors theme).isSome
  · simpa [h] using h
  · simpa [h] using hdef

/-- **C8.** `getColor` never throws when the default theme exists in the
schema (as it does in `tokens.json`, since `DEFAULT_THEME` typechecks as a
`ThemeName`): the result is always `some` value that is either the fixed
default color or drawn from the schema.  Moreover, for a theme name absent
from the schema the result coincides with the default theme's resolution of
the same token. -/
theorem getColor_total_and_theme_fallback (colors : ColorSchema)
    (theme token : String) (hdef : (alookup colors DEFAULT_THEME).isSome) :
    (∃ v, getColor? colors theme token = some v ∧
      (v = DEFAULT_COLOR ∨ v ∈ schemaColorValues colors))
    ∧ (alookup colors theme = none →
        getColor? colors theme token = getColor? colors DEFAULT_THEME token) := by
  constructor
  · have hsome := alookup_resolvedTheme_isSome colors theme hdef
    obtain ⟨tc, htc⟩ := Option.isSome_iff_exists.mp hsome
    have htc_mem : (resolvedThemeName colors theme, tc) ∈ colors := alookup_mem htc
    cases hg : alookup tc (groupNameOf token) with
    | none =>
      exact ⟨DEFAULT_COLOR, by simp only [getColor?, htc, hg], Or.inl rfl⟩
    | some g =>
      have hg_mem := alookup_mem hg
      cases g with
      | single s =>
        exact ⟨s, by simp only [getColor?, htc, hg],
          Or.inr (mem_schemaColorValues htc_mem hg_mem (by simp [groupValues]))⟩
      | shades m =>
        cases h5 : (if shadeOf token = "" then alookup m "500" else none) with
        | some v =>
          refine ⟨v, by simp only [getColor?, htc, hg, h5],
            Or.inr (mem_schemaColorValues htc_mem hg_mem ?_)⟩
          have hvm : ("500", v) ∈ m := by
            split at h5
            · exact alookup_mem h5
            · exact absurd h5 (by simp)
          simp only [groupValues, List.mem_map]
          exact ⟨_, hvm, rfl⟩
        | none =>
          cases hs : alookup m (shadeOf token) with
          | some v =>
            refine ⟨v, by simp only [getColor?, htc, hg, h5, hs],
              Or.inr (mem_schemaColorValues htc_mem hg_mem ?_)⟩
            simp only [groupValues, List.mem_map]
            exact ⟨_, alookup_mem hs, rfl⟩
          | none =>
            exact ⟨DEFAULT_COLOR, by simp only [getColor?, htc, hg, h5, hs], Or.inl rfl⟩
  · intro hnone
    have h1 : resolvedThemeName colors theme = DEFAULT_THEME := by
      unfold resolvedThemeName
      simp [hnone]
    unfold getColor?
    rw [h1, resolvedThemeName_default]

/-- Witness for C8 at a concrete schema and an unknown theme name. -/
theorem getColor_total_and_theme_fallback_witness :
    (∃ v, getColor? demoColors "dark-unknown" "primary/500" = some v ∧
      (v = DEFAULT_COLOR ∨ v ∈ schemaColorValues demoColors))
    ∧ getColor? demoColors "dark-unknown" "primary/500"
        = getColor? demoColors DEFAULT_THEME "primary/500" :=
  ⟨(getColor_total_and_theme_fallback demoColors "dark-unknown" "primary/500"
      (by decide)).1,
   (getColor_total_and_theme_fallback demoColors "dark-unknown" "primary/500"
      (by decide)).2 (by decide)⟩

/-- **C1 counterexample.** In the `light` theme of a schema whose `primary`
group is a shade map containing `"500"`, requesting the missing shade
`"900"` returns the fixed default color `#000000`, not the `"500"` entry:
the requested-shade→`"500"` fallback the claim describes does not exist in
the code. -/
theorem getColor_requested_shade_no_500_fallback :
    alookup demoColors "light"
      = some [("primary", .shades [("50", "#EEF2FF"), ("500", "#6366F1"), ("600", "#4F46E5")]),
              ("neutral", .shades [("50", "#F8FAFC"), ("900", "#0F172A")]),
              ("surface", .single "#FFFFFF")]
    ∧ alookup [("50", "#EEF2FF"), ("500", "#6366F1"), ("600", "#4F46E5")] "500"
      = some "#6366F1"
    ∧ getColor? demoColors "light" "primary/900" = some DEFAULT_COLOR
    ∧ getColor? demoColors "light" "primary/900" ≠ some "#6366F1" := by
  refine ⟨by decide, by decide, by decide, by decide⟩

/-- **C1 (amended).** For a resolved shade-map group: an omitted shade
defaults to `"500"` (then to the empty-string key, then to the default
color); an explicitly requested shade that is missing yields the fixed
default color even when `"500"` is present. -/
theorem getColor_shadeMap_characterization (colors : ColorSchema)
    (theme token : String) (tc : List (String × ColorGroup))
    (m : List (String × String))
    (h1 : alookup colors (resolvedThemeName colors theme) = some tc)
    (h2 : alookup tc (groupNameOf token) = some (ColorGroup.shades m)) :
    (shadeOf token = "" →
      getColor? colors theme token
        = some (((alookup m "500").orElse fun _ => alookup m "").getD DEFAULT_COLOR))
    ∧ (shadeOf token ≠ "" →
      getColor? colors theme token
        = some ((alookup m (shadeOf token)).getD DEFAULT_COLOR)) := by
  constructor
  · intro hs
    simp only [getColor?, h1, h2, hs, if_pos rfl]
    cases h5 : alookup m "500" with
    | some v => simp [Option.orElse]
    | none =>
      cases he : alookup m "" with
      | some v => simp [hs, Option.orElse, he]
      | none => simp [hs, Option.orElse, he]
  · intro hs
    simp only [getColor?, h1, h2, if_neg hs]
    cases he : alookup m (shadeOf token) with
    | some v => simp [he]
    | none => simp [he]

/-- Witness for the amended C1 at the concrete schema: explicit missing
shade `900` with `"500"` present gives the default color. -/
theorem getColor_shadeMap_characterization_witness :
    getColor? demoColors "light" "primary/900"
      = some ((alookup [("50", "#EEF2FF"), ("500", "#6366F1"), ("600", "#4F46E5")]
                "900").getD DEFAULT_COLOR) :=
  (getColor_shadeMap_characterization demoColors "light" "primary/900"
      [("primary", .shades [("50", "#EEF2FF"), ("500", "#6366F1"), ("600", "#4F46E5")]),
       ("neutral", .shades [("50", "#F8FAFC"), ("900", "#0F172A")]),
       ("surface", .single "#FFFFFF")]
      [("50", "#EEF2FF"), ("500", "#6366F1"), ("600", "#4F46E5")]
      (by decide) (by decide)).2 (by decide)

/-- **C9.** `resolveInterFont` selects the first threshold-table entry whose
threshold is ≤ the weight, with the threshold-0 entry as universal fallback
(spelled out on the concrete descending table), and the selected threshold
is monotone in the weight. -/
theorem resolveInterFont_first_threshold_and_monotone :
    (∀ w : Int, pickInterStyle w =
      if 700 ≤ w then ((700 : Int), "Bold")
      else if 600 ≤ w then ((600 : Int), "Semi Bold")
      else if 500 ≤ w then ((500 : Int), "Medium")
      else ((0 : Int), "Regular"))
    ∧ ∀ w₁ w₂ : Int, w₁ < w₂ → selectedThreshold w₁ ≤ selectedThreshold w₂ := by
  have hchar : ∀ w : Int, pickInterStyle w =
      if 700 ≤ w then ((700 : Int), "Bold")
      else if 600 ≤ w then ((600 : Int), "Semi Bold")
      else if 500 ≤ w then ((500 : Int), "Medium")
      else ((0 : Int), "Regular") := by
    intro w
    show pickInterStyle.go w INTER_STYLES = _
    simp only [INTER_STYLES, pickInterStyle.go]
    split_ifs <;> simp_all
  refine ⟨hchar, fun w₁ w₂ h => ?_⟩
  simp only [selectedThreshold, hchar]
  split_ifs <;> simp <;> omega

/-- Witness for C9's monotonicity at concrete weights. -/
theorem resolveInterFont_monotone_witness :
    (400 : Int) < 650 ∧ selectedThreshold 400 ≤ selectedThreshold 650 :=
  ⟨by decide,
   resolveInterFont_first_threshold_and_monotone.2 400 650 (by decide)⟩

/-! ## ColorCodec: `hexToRgbaColor` (tokens.ts lines 157-169)

`rgba.match(/rgba?\(\s*(\d+)\s*,\s*(\d+)\s*,\s*(\d+)\s*,\s*(\d*\.?\d+)\s*\)/i)`
is embedded as a scan over the character list: at each position the pattern
is matched greedily (for this pattern greedy matching agrees with the
backtracking regex semantics, since every component's follower set is
disjoint from its own character set).  JS numbers are modelled as exact
rationals. -/

/-- JS `\s` (the regex whitespace class), by code point. -/
def isWsChar (c : Char) : Bool :=
  c.toNat = 9 || c.toNat = 10 || c.toNat = 11 || c.toNat = 12 || c.toNat = 13 ||
  c.toNat = 32 || c.toNat = 0xa0 || c.toNat = 0x1680 ||
  (0x2000 ≤ c.toNat && c.toNat ≤ 0x200a) ||
  c.toNat = 0x2028 || c.toNat = 0x2029 || c.toNat = 0x202f ||
  c.toNat = 0x205f || c.toNat = 0x3000 || c.toNat = 0xfeff

/-- JS `\d`, exactly the ASCII digits. -/
def isDigitChar (c : Char) : Bool := 48 ≤ c.toNat && c.toNat ≤ 57

/-- Decimal value of a digit string, as `Number` would read an integer. -/
def digitsToNat (l : List Char) : Nat :=
  l.foldl (fun acc c => acc * 10 + (c.toNat - 48)) 0

/-- Split a matched decimal component at its (unique possible) dot. -/
def splitDot : List Char → List Char × Option (List Char)
  | [] => ([], none)
  | c :: t =>
    if c = '.' then ([], some t)
    else
      match splitDot t with
      | (ip, fp) => (c :: ip, fp)

/-- `Number` of a matched `\d*\.?\d+` component, as an exact rational. -/
def decToRat (l : List Char) : ℚ :=
  match splitDot l with
  | (ip, none) => (digitsToNat ip : ℚ)
  | (ip, some fp) => (digitsToNat ip : ℚ) + (digitsToNat fp : ℚ) / 10 ^ fp.length

/-- A normalized RGBA color (the `RGBA` shape), channels as rationals. -/
structure RgbaQ where
  r : ℚ
  g : ℚ
  b : ℚ
  a : ℚ
deriving DecidableEq, Repr

/-- `\s*`: skip a maximal run of whitespace. -/
def skipWs (l : List Char) : List Char := l.dropWhile isWsChar

/-- `(\d+)`: a maximal nonempty run of digits. -/
def readInt (l : List Char) : Option (List Char × List Char) :=
  if l.takeWhile isDigitChar = [] then none
  else some (l.takeWhile isDigitChar, l.dropWhile isDigitChar)

/-- One literal character. -/
def readChar (c : Char) (l : List Char) : Option (List Char) :=
  match l with
  | x :: t => if x = c then some t else none
  | [] => none

/-- `rgba?\(` case-insensitively: three letters `rgb`, then either `a` and a
parenthesis or a parenthesis directly (a match needs at least four more
characters, so the four-deep pattern is exhaustive). -/
def readHead (l : List Char) : Option (List Char) :=
  match l with
  | c1 :: c2 :: c3 :: c4 :: rest =>
    if c1.toLower = 'r' && c2.toLower = 'g' && c3.toLower = 'b' then
      if c4.toLower = 'a' then readChar '(' rest
      else if c4 = '(' then some rest
      else none
    else none
  | _ => none

/-- `(\d*\.?\d+)`: greedy digits, an optional dot that must be followed by at
least one digit, greedy digits. -/
def readDec (l : List Char) : Option (List Char × List Char) :=
  match l.dropWhile isDigitChar with
  | '.' :: t =>
    if t.takeWhile isDigitChar = [] then
      if l.takeWhile isDigitChar = [] then none
      else some (l.takeWhile isDigitChar, l.dropWhile isDigitChar)
    else some (l.takeWhile isDigitChar ++ '.' :: t.takeWhile isDigitChar,
               t.dropWhile isDigitChar)
  | _ =>
    if l.takeWhile isDigitChar = [] then none
    else some (l.takeWhile isDigitChar, l.dropWhile isDigitChar)

/-- Attempt the full pattern at the start of `l`, returning the four matched
component character runs. -/
def matchAt (l : List Char) :
    Option (List Char × List Char × List Char × List Char) :=
  match readHead l with
  | none => none
  | some l1 =>
  match readInt (skipWs l1) with
  | none => none
  | some (r, l2) =>
  match readChar ',' (skipWs l2) with
  | none => none
  | some l3 =>
  match readInt (skipWs l3) with
  | none => none
  | some (g, l4) =>
  match readChar ',' (skipWs l4) with
  | none => none
  | some l5 =>
  match readInt (skipWs l5) with
  | none => none
  | some (b, l6) =>
  match readChar ',' (skipWs l6) with
  | none => none
  | some l7 =>
  match readDec (skipWs l7) with
  | none => none
  | some (a, l8) =>
  match readChar ')' (skipWs l8) with
  | none => none
  | some _ => some (r, g, b, a)

/-- `String.prototype.match` without the global flag: the leftmost position
where the pattern matches. -/
def findMatch : List Char → Option (List Char × List Char × List Char × List Char)
  | [] => none
  | c :: t =>
    match matchAt (c :: t) with
    | some x => some x
    | none => findMatch t

/-- `hexToRgbaColor(rgba)` (tokens.ts lines 157-169): parse the first
`rgba?(r,g,b,a)` occurrence; on a match divide the integer channels by 255
and take the alpha verbatim, otherwise return the fixed fallback color with
alpha 0.16. -/
def hexToRgbaColor (s : String) : RgbaQ :=
  match findMatch s.data with
  | none => ⟨0, 0, 0, 16/100⟩
  | some (r, g, b, a) =>
    ⟨(digitsToNat r : ℚ) / 255, (digitsToNat g : ℚ) / 255,
     (digitsToNat b : ℚ) / 255, decToRat a⟩

example : hexToRgbaColor "rgba(255, 255, 255, 1)" = ⟨1, 1, 1, 1⟩ := by
  have h : findMatch ("rgba(255, 255, 255, 1)").data
      = some (['2','5','5'], ['2','5','5'], ['2','5','5'], ['1']) := by decide
  simp only [hexToRgbaColor, h, decToRat,
    show digitsToNat ['2','5','5'] = 255 from by decide,
    show splitDot ['1'] = (['1'], none) from by decide,
    show digitsToNat ['1'] = 1 from by decide]
  norm_num

example : hexToRgbaColor "not a color" = ⟨0, 0, 0, 16/100⟩ := by
  have h : findMatch ("not a color").data = none := by decide
  simp [hexToRgbaColor, h]

example : hexToRgbaColor "rgba(1.5, 2, 3, 0.5)" = ⟨0, 0, 0, 16/100⟩ := by
  have h : findMatch ("rgba(1.5, 2, 3, 0.5)").data = none := by decide
  simp [hexToRgbaColor, h]

example : hexToRgbaColor "RGB( 12 ,0,  3 , .5 )" = ⟨12/255, 0, 3/255, 1/2⟩ := by
  have h : findMatch ("RGB( 12 ,0,  3 , .5 )").data
      = some (['1','2'], ['0'], ['3'], ['.','5']) := by decide
  simp only [hexToRgbaColor, h, decToRat,
    show digitsToNat ['1','2'] = 12 from by decide,
    show digitsToNat ['0'] = 0 from by decide,
    show digitsToNat ['3'] = 3 from by decide,
    show splitDot ['.','5'] = ([], some ['5']) from by decide,
    show digitsToNat ['5'] = 5 from by decide,
    show digitsToNat ([] : List Char) = 0 from by decide]
  norm_num

/-- **C2 counterexample.** The string `"rgba(300, 0, 0, 2)"` matches the
pattern (the result is not the fallback color), yet its red channel is
`300/255 > 1` and its alpha is `2 > 1`: matched channels are *not*
normalized into `[0,1]` — the red/green/blue components are divided by 255
without clamping and the alpha is taken verbatim.  Additionally, a decimal
red component (`"rgba(1.5, 2, 3, 0.5)"`) does *not* match even though the
claim says decimal components are matched. -/
theorem hexToRgbaColor_not_normalized :
    hexToRgbaColor "rgba(300, 0, 0, 2)" = ⟨300/255, 0, 0, 2⟩
    ∧ hexToRgbaColor "rgba(300, 0, 0, 2)" ≠ ⟨0, 0, 0, 16/100⟩
    ∧ ¬ (hexToRgbaColor "rgba(300, 0, 0, 2)").r ≤ 1
    ∧ ¬ (hexToRgbaColor "rgba(300, 0, 0, 2)").a ≤ 1
    ∧ hexToRgbaColor "rgba(1.5, 2, 3, 0.5)" = ⟨0, 0, 0, 16/100⟩ := by
  have h : findMatch ("rgba(300, 0, 0, 2)").data
      = some (['3','0','0'], ['0'], ['0'], ['2']) := by decide
  have h2 : findMatch ("rgba(1.5, 2, 3, 0.5)").data = none := by decide
  have hv : hexToRgbaColor "rgba(300, 0, 0, 2)" = ⟨300/255, 0, 0, 2⟩ := by
    simp only [hexToRgbaColor, h, decToRat,
      show digitsToNat ['3','0','0'] = 300 from by decide,
      show digitsToNat ['0'] = 0 from by decide,
      show splitDot ['2'] = (['2'], none) from by decide,
      show digitsToNat ['2'] = 2 from by decide]
    norm_num
  refine ⟨hv, ?_, ?_, ?_, by simp [hexToRgbaColor, h2]⟩
  · rw [hv]
    intro hcontra
    have := congrArg RgbaQ.a hcontra
    norm_num at this
  · rw [hv]
    norm_num
  · rw [hv]
    norm_num

/-! ### Declarative reading of the source's pattern

`SpecRgbaMatch` states, following the spec's words, that the string contains
an occurrence of `rgba?( r , g , b , a )` — case-insensitive head,
whitespace-tolerant separators, `\d+` integer color components and a
`\d*\.?\d+` alpha component.  The executable scanner is proved sound and
complete for it. -/

/-- A run of regex whitespace (`\s*`). -/
def WsRun (l : List Char) : Prop := ∀ c ∈ l, isWsChar c = true

/-- A nonempty run of digits (`\d+`). -/
def DigitRun (l : List Char) : Prop := l ≠ [] ∧ ∀ c ∈ l, isDigitChar c = true

/-- A decimal component (`\d*\.?\d+`): digits, or digits-dot-digits with at
least one digit after the dot. -/
def DecRun (l : List Char) : Prop :=
  DigitRun l ∨
  ∃ d₁ d₂, l = d₁ ++ '.' :: d₂ ∧ (∀ c ∈ d₁, isDigitChar c = true) ∧ DigitRun d₂

/-- The pattern head `rgba?\(`, case-insensitively. -/
def HeadRun (l : List Char) : Prop :=
  ∃ c₁ c₂ c₃ t, l = [c₁, c₂, c₃] ++ t ++ ['(']
    ∧ c₁.toLower = 'r' ∧ c₂.toLower = 'g' ∧ c₃.toLower = 'b'
    ∧ (t = [] ∨ ∃ c₄, t = [c₄] ∧ c₄.toLower = 'a')

/-- A full occurrence of the pattern with component runs `r`, `g`, `b`, `a`. -/
def CoreMatch (core r g b a : List Char) : Prop :=
  ∃ hd w₁ w₂ w₃ w₄ w₅ w₆ w₇ w₈,
    core = hd ++ w₁ ++ r ++ w₂ ++ [','] ++ w₃ ++ g ++ w₄ ++ [','] ++ w₅ ++ b
      ++ w₆ ++ [','] ++ w₇ ++ a ++ w₈ ++ [')']
    ∧ HeadRun hd ∧ WsRun w₁ ∧ WsRun w₂ ∧ WsRun w₃ ∧ WsRun w₄ ∧ WsRun w₅
    ∧ WsRun w₆ ∧ WsRun w₇ ∧ WsRun w₈
    ∧ DigitRun r ∧ DigitRun g ∧ DigitRun b ∧ DecRun a

/-- The pattern occurs somewhere in `s` with component runs `r g b a`. -/
def SpecRgbaMatch (s r g b a : List Char) : Prop :=
  ∃ pre core post, s = pre ++ core ++ post ∧ CoreMatch core r g b a

lemma skipWs_decomp (l : List Char) :
    l = l.takeWhile isWsChar ++ skipWs l ∧ WsRun (l.takeWhile isWsChar) :=
  ⟨(List.takeWhile_append_dropWhile isWsChar l).symm,
   fun _ hc => List.mem_takeWhile_imp hc⟩

lemma readInt_sound {l d rest : List Char} (h : readInt l = some (d, rest)) :
    l = d ++ rest ∧ DigitRun d := by
  unfold readInt at h
  split at h
  · exact absurd h (by simp)
  · rename_i hne
    obtain ⟨hd, hr⟩ := Prod.mk.injEq .. ▸ Option.some.injEq .. ▸ h
    subst hd
    subst hr
    exact ⟨(List.takeWhile_append_dropWhile _ _).symm,
      hne, fun _ hc => List.mem_takeWhile_imp hc⟩

lemma readChar_sound {c : Char} {l t : List Char} (h : readChar c l = some t) :
    l = c :: t := by
  cases l with
  | nil => exact absurd h (by simp [readChar])
  | cons x xs =>
    by_cases hx : x = c
    · subst hx
      simp [readChar] at h
      rw [h]
    · simp [readChar, hx] at h

lemma readHead_sound {l rest : List Char} (h : readHead l = some rest) :
    ∃ hd, l = hd ++ rest ∧ HeadRun hd := by
  cases l with
  | nil => exact absurd h (by simp [readHead])
  | cons c₁ l₁ =>
  cases l₁ with
  | nil => exact absurd h (by simp [readHead])
  | cons c₂ l₂ =>
  cases l₂ with
  | nil => exact absurd h (by simp [readHead])
  | cons c₃ l₃ =>
  cases l₃ with
  | nil => exact absurd h (by simp [readHead])
  | cons c₄ l₄ =>
  simp only [readHead] at h
  split at h
  · rename_i hrgb
    simp only [Bool.and_eq_true, decide_eq_true_eq] at hrgb
    obtain ⟨⟨h₁, h₂⟩, h₃⟩ := hrgb
    split at h
    · rename_i ha
      have h4 := readChar_sound h
      refine ⟨[c₁, c₂, c₃, c₄, '('], ?_, ?_⟩
      · simp [h4]
      · exact ⟨c₁, c₂, c₃, [c₄], by simp, h₁, h₂, h₃, Or.inr ⟨c₄, rfl, ha⟩⟩
    · split at h
      · rename_i hp
        subst hp
        obtain rfl := Option.some.injEq .. ▸ h
        refine ⟨[c₁, c₂, c₃, '('], ?_, ?_⟩
        · simp
        · exact ⟨c₁, c₂, c₃, [], by simp, h₁, h₂, h₃, Or.inl rfl⟩
      · exact absurd h (by simp)
  · exact absurd h (by simp)

lemma readDec_sound {l a rest : List Char} (h : readDec l = some (a, rest)) :
    l = a ++ rest ∧ DecRun a := by
  unfold readDec at h
  split at h
  · rename_i t hdw
    split at h
    · split at h
      · exact absurd h (by simp)
      · rename_i hne
        obtain ⟨ha, hr⟩ := Prod.mk.injEq .. ▸ Option.some.injEq .. ▸ h
        subst ha
        subst hr
        exact ⟨(List.takeWhile_append_dropWhile _ _).symm,
          Or.inl ⟨hne, fun _ hc => List.mem_takeWhile_imp hc⟩⟩
    · rename_i hne
      obtain ⟨ha, hr⟩ := Prod.mk.injEq .. ▸ Option.some.injEq .. ▸ h
      subst ha
      subst hr
      constructor
      · calc l = l.takeWhile isDigitChar ++ l.dropWhile isDigitChar :=
              (List.takeWhile_append_dropWhile isDigitChar l).symm
          _ = l.takeWhile isDigitChar ++ ('.' :: t) := by rw [hdw]
          _ = l.takeWhile isDigitChar
              ++ ('.' :: (t.takeWhile isDigitChar ++ t.dropWhile isDigitChar)) := by
              rw [List.takeWhile_append_dropWhile]
          _ = (l.takeWhile isDigitChar ++ '.' :: t.takeWhile isDigitChar)
              ++ t.dropWhile isDigitChar := by simp
      · exact Or.inr ⟨l.takeWhile isDigitChar, t.takeWhile isDigitChar, rfl,
          fun _ hc => List.mem_takeWhile_imp hc,
          hne, fun _ hc => List.mem_takeWhile_imp hc⟩
  · split at h
    · exact absurd h (by simp)
    · rename_i hne
      obtain ⟨ha, hr⟩ := Prod.mk.injEq .. ▸ Option.some.injEq .. ▸ h
      subst ha
      subst hr
      exact ⟨(List.takeWhile_append_dropWhile _ _).symm,
        Or.inl ⟨hne, fun _ hc => List.mem_takeWhile_imp hc⟩⟩

lemma matchAt_sound {l r g b a : List Char}
    (h : matchAt l = some (r, g, b, a)) :
    ∃ core post, l = core ++ post ∧ CoreMatch core r g b a := by
  unfold matchAt at h
  split at h
  · exact absurd h (by simp)
  rename_i l₁ e₁
  split at h
  · exact absurd h (by simp)
  rename_i p₂ r' l₂ e₂
  split at h
  · exact absurd h (by simp)
  rename_i l₃ e₃
  split at h
  · exact absurd h (by simp)
  rename_i p₄ g' l₄ e₄
  split at h
  · exact absurd h (by simp)
  rename_i l₅ e₅
  split at h
  · exact absurd h (by simp)
  rename_i p₆ b' l₆ e₆
  split at h
  · exact absurd h (by simp)
  rename_i l₇ e₇
  split at h
  · exact absurd h (by simp)
  rename_i p₈ a' l₈ e₈
  split at h
  · exact absurd h (by simp)
  rename_i l₉ e₉
  obtain ⟨rfl, rfl, rfl, rfl⟩ :
      r = r' ∧ g = g' ∧ b = b' ∧ a = a' := by
    have := Option.some.injEq .. ▸ h
    simp_all
  obtain ⟨hd, hl, hHead⟩ := readHead_sound e₁
  obtain ⟨hi₁, hdr⟩ := readInt_sound e₂
  have hc₁ := readChar_sound e₃
  obtain ⟨hi₂, hdg⟩ := readInt_sound e₄
  have hc₂ := readChar_sound e₅
  obtain ⟨hi₃, hdb⟩ := readInt_sound e₆
  have hc₃ := readChar_sound e₇
  obtain ⟨hi₄, hda⟩ := readDec_sound e₈
  have hc₄ := readChar_sound e₉
  obtain ⟨hs₁, hw₁⟩ := skipWs_decomp l₁
  obtain ⟨hs₂, hw₂⟩ := skipWs_decomp l₂
  obtain ⟨hs₃, hw₃⟩ := skipWs_decomp l₃
  obtain ⟨hs₄, hw₄⟩ := skipWs_decomp l₄
  obtain ⟨hs₅, hw₅⟩ := skipWs_decomp l₅
  obtain ⟨hs₆, hw₆⟩ := skipWs_decomp l₆
  obtain ⟨hs₇, hw₇⟩ := skipWs_decomp l₇
  obtain ⟨hs₈, hw₈⟩ := skipWs_decomp l₈
  refine ⟨hd ++ l₁.takeWhile isWsChar ++ r ++ l₂.takeWhile isWsChar ++ [',']
      ++ l₃.takeWhile isWsChar ++ g ++ l₄.takeWhile isWsChar ++ [',']
      ++ l₅.takeWhile isWsChar ++ b ++ l₆.takeWhile isWsChar ++ [',']
      ++ l₇.takeWhile isWsChar ++ a ++ l₈.takeWhile isWsChar ++ [')'],
    l₉, ?_, ?_⟩
  · rw [hl]
    conv_lhs => rw [hs₁, hi₁, hs₂, hc₁, hs₃, hi₂, hs₄, hc₂, hs₅, hi₃, hs₆,
      hc₃, hs₇, hi₄, hs₈, hc₄]
    simp [List.append_assoc]
  · exact ⟨hd, l₁.takeWhile isWsChar, l₂.takeWhile isWsChar,
      l₃.takeWhile isWsChar, l₄.takeWhile isWsChar, l₅.takeWhile isWsChar,
      l₆.takeWhile isWsChar, l₇.takeWhile isWsChar, l₈.takeWhile isWsChar,
      rfl, hHead, hw₁, hw₂, hw₃, hw₄, hw₅, hw₆, hw₇, hw₈, hdr, hdg, hdb, hda⟩

lemma findMatch_sound {l : List Char}
    {x : List Char × List Char × List Char × List Char}
    (h : findMatch l = some x) :
    ∃ pre rest, l = pre ++ rest ∧ matchAt rest = some x := by
  induction l with
  | nil => simp [findMatch] at h
  | cons c t ih =>
    rw [findMatch] at h
    cases hm : matchAt (c :: t) with
    | some y =>
      rw [hm] at h
      simp at h
      exact ⟨[], c :: t, by simp, by rw [hm, h]⟩
    | none =>
      rw [hm] at h
      obtain ⟨pre, rest, hp, hm2⟩ := ih h
      exact ⟨c :: pre, rest, by simp [hp], hm2⟩

lemma digit_not_ws {c : Char} (h : isDigitChar c = true) : isWsChar c = false := by
  simp only [isDigitChar, Bool.and_eq_true, decide_eq_true_eq] at h
  simp only [isWsChar, Bool.or_eq_false_iff, decide_eq_false_iff_not,
    Bool.and_eq_false_iff, decide_eq_true_eq]
  omega

lemma takeDrop_append (p : Char → Bool) (w rest : List Char)
    (hw : ∀ c ∈ w, p c = true) (hr : ∀ c, rest.head? = some c → p c = false) :
    (w ++ rest).takeWhile p = w ∧ (w ++ rest).dropWhile p = rest := by
  induction w with
  | nil =>
    cases rest with
    | nil => simp
    | cons c t =>
      have hc := hr c rfl
      simp [List.takeWhile_cons, List.dropWhile_cons, hc]
  | cons x xs ih =>
    have hx := hw x (by simp)
    have ih2 := ih (fun c hc => hw c (by simp [hc]))
    simp [List.takeWhile_cons, List.dropWhile_cons, hx, ih2.1, ih2.2]

lemma ws_not_digit {c : Char} (h : isWsChar c = true) : isDigitChar c = false := by
  simp only [isWsChar, Bool.or_eq_true, decide_eq_true_eq, Bool.and_eq_true] at h
  simp only [isDigitChar, Bool.and_eq_false_iff, decide_eq_false_iff_not]
  omega

/-- Head of a digit run followed by anything is not whitespace. -/
lemma headNot_ws_of_digits {d rest : List Char} (hd : DigitRun d) :
    ∀ c, (d ++ rest).head? = some c → isWsChar c = false := by
  obtain ⟨hne, hall⟩ := hd
  cases d with
  | nil => exact absurd rfl hne
  | cons x xs =>
    intro c hc
    simp only [List.cons_append, List.head?_cons, Option.some.injEq] at hc
    exact hc ▸ digit_not_ws (hall x (by simp))

/-- Head of a decimal run followed by anything is not whitespace. -/
lemma headNot_ws_of_dec {a rest : List Char} (ha : DecRun a) :
    ∀ c, (a ++ rest).head? = some c → isWsChar c = false := by
  cases ha with
  | inl h => exact headNot_ws_of_digits h
  | inr h =>
    obtain ⟨d₁, d₂, rfl, hd₁, hd₂⟩ := h
    cases d₁ with
    | nil =>
      intro c hc
      simp only [List.nil_append, List.cons_append, List.head?_cons,
        Option.some.injEq] at hc
      subst hc
      decide
    | cons x xs =>
      intro c hc
      simp only [List.cons_append, List.head?_cons, Option.some.injEq] at hc
      exact hc ▸ digit_not_ws (hd₁ x (by simp))

lemma readHead_complete {hd : List Char} (h : HeadRun hd) :
    ∀ rest, readHead (hd ++ rest) = some rest := by
  obtain ⟨c₁, c₂, c₃, t, rfl, h₁, h₂, h₃, ht⟩ := h
  intro rest
  have hpa : ('(' : Char).toLower = 'a' ↔ False := by decide
  cases ht with
  | inl h0 =>
    subst h0
    simp [readHead, h₁, h₂, h₃, hpa]
  | inr h1 =>
    obtain ⟨c₄, rfl, ha⟩ := h1
    simp [readHead, h₁, h₂, h₃, ha, readChar]

lemma skipWs_before_digits {w d : List Char} (hw : WsRun w) (hd : DigitRun d) :
    ∀ rest, skipWs (w ++ (d ++ rest)) = d ++ rest := fun rest =>
  (takeDrop_append isWsChar w (d ++ rest) hw (headNot_ws_of_digits hd)).2

lemma skipWs_before_dec {w a : List Char} (hw : WsRun w) (ha : DecRun a) :
    ∀ rest, skipWs (w ++ (a ++ rest)) = a ++ rest := fun rest =>
  (takeDrop_append isWsChar w (a ++ rest) hw (headNot_ws_of_dec ha)).2

lemma skipWs_before_char {w : List Char} (s : Char) (hw : WsRun w)
    (hs : isWsChar s = false) :
    ∀ rest, skipWs (w ++ s :: rest) = s :: rest := fun rest =>
  (takeDrop_append isWsChar w (s :: rest) hw (fun c hc => by
    simp only [List.head?_cons, Option.some.injEq] at hc
    exact hc ▸ hs)).2

lemma readChar_complete (c : Char) (t : List Char) :
    readChar c (c :: t) = some t := by simp [readChar]

/-- Head of whitespace followed by a non-whitespace separator. -/
lemma headNot_of_ws_cons {p : Char → Bool} {w tail : List Char} {sep : Char}
    (hw : WsRun w) (hsep : p sep = false)
    (hdisj : ∀ c, isWsChar c = true → p c = false) :
    ∀ c, (w ++ sep :: tail).head? = some c → p c = false := by
  cases w with
  | nil =>
    intro c hc
    simp only [List.nil_append, List.head?_cons, Option.some.injEq] at hc
    exact hc ▸ hsep
  | cons x xs =>
    intro c hc
    simp only [List.cons_append, List.head?_cons, Option.some.injEq] at hc
    exact hc ▸ hdisj x (hw x (by simp))

/-- Head of whitespace followed by a comma is never a digit. -/
lemma headNot_digit_ws_comma {w tail : List Char} (hw : WsRun w) :
    ∀ c, (w ++ ',' :: tail).head? = some c → isDigitChar c = false :=
  headNot_of_ws_cons hw (by decide) fun _ hc => ws_not_digit hc

lemma readInt_complete {d w : List Char} (hd : DigitRun d) (hw : WsRun w) :
    ∀ rest, readInt (d ++ (w ++ ',' :: rest)) = some (d, w ++ ',' :: rest) := by
  intro rest
  obtain ⟨hne, hall⟩ := hd
  have h := takeDrop_append isDigitChar d (w ++ ',' :: rest) hall
    (headNot_digit_ws_comma hw)
  simp [readInt, h.1, h.2, hne]

/-- After the alpha component comes whitespace and a closing parenthesis:
no digit and no dot can start that follower. -/
lemma headNot_dec_follower {w tail : List Char} (hw : WsRun w) :
    ∀ c, (w ++ ')' :: tail).head? = some c →
      isDigitChar c = false ∧ (c = '.' → False) := by
  cases w with
  | nil =>
    intro c hc
    simp only [List.nil_append, List.head?_cons, Option.some.injEq] at hc
    subst hc
    exact ⟨by decide, by decide⟩
  | cons x xs =>
    intro c hc
    simp only [List.cons_append, List.head?_cons, Option.some.injEq] at hc
    subst hc
    have hws := hw x (by simp)
    refine ⟨ws_not_digit hws, fun hdot => ?_⟩
    subst hdot
    exact absurd hws (by decide)

lemma readDec_complete {a w : List Char} (ha : DecRun a) (hw : WsRun w) :
    ∀ rest, readDec (a ++ (w ++ ')' :: rest)) = some (a, w ++ ')' :: rest) := by
  intro rest
  have hfol : ∀ c, (w ++ ')' :: rest).head? = some c →
      isDigitChar c = false ∧ (c = '.' → False) := headNot_dec_follower hw
  cases ha with
  | inl hdig =>
    obtain ⟨hne, hall⟩ := hdig
    have h := takeDrop_append isDigitChar a (w ++ ')' :: rest) hall
      (fun c hc => (hfol c hc).1)
    rw [readDec]
    rw [h.1, h.2]
    cases hwr : w ++ ')' :: rest with
    | nil => exact absurd hwr (by cases w <;> simp)
    | cons c t =>
      have hcdot : (c = '.') → False := by
        intro hdot
        exact (hfol c (by rw [hwr]; rfl)).2 hdot
      split
      · rename_i heq
        rw [List.cons.injEq] at heq
        exact absurd heq.1 hcdot
      · simp [hne]
  | inr hdd =>
    obtain ⟨d₁, d₂, rfl, hd₁, hne₂, hall₂⟩ := hdd
    have h₁ := takeDrop_append isDigitChar d₁ ('.' :: (d₂ ++ (w ++ ')' :: rest)))
      hd₁ (fun c hc => by
        simp only [List.head?_cons, Option.some.injEq] at hc
        subst hc
        decide)
    have h₂ := takeDrop_append isDigitChar d₂ (w ++ ')' :: rest) hall₂
      (fun c hc => (hfol c hc).1)
    have hassoc : (d₁ ++ '.' :: d₂) ++ (w ++ ')' :: rest)
        = d₁ ++ ('.' :: (d₂ ++ (w ++ ')' :: rest))) := by simp
    rw [readDec, hassoc, h₁.1, h₁.2]
    simp only [h₂.1, h₂.2]
    simp [hne₂]

lemma matchAt_complete {core r g b a : List Char} (h : CoreMatch core r g b a) :
    ∀ post, matchAt (core ++ post) = some (r, g, b, a) := by
  intro post
  obtain ⟨hd, w₁, w₂, w₃, w₄, w₅, w₆, w₇, w₈, rfl, hHead, hw₁, hw₂, hw₃, hw₄,
    hw₅, hw₆, hw₇, hw₈, hr, hg, hb, ha⟩ := h
  have hform : (hd ++ w₁ ++ r ++ w₂ ++ [','] ++ w₃ ++ g ++ w₄ ++ [','] ++ w₅
        ++ b ++ w₆ ++ [','] ++ w₇ ++ a ++ w₈ ++ [')']) ++ post
      = hd ++ (w₁ ++ (r ++ (w₂ ++ (',' :: (w₃ ++ (g ++ (w₄ ++ (',' :: (w₅ ++ (b ++ (w₆ ++ (',' :: (w₇ ++ (a ++ (w₈ ++ (')' :: post))))))))))))))))
      := by simp [List.append_assoc]
  rw [hform]
  simp only [matchAt, readHead_complete hHead, skipWs_before_digits hw₁ hr,
    readInt_complete hr hw₂, skipWs_before_char ',' hw₂ (by decide),
    readChar_complete, skipWs_before_digits hw₃ hg, readInt_complete hg hw₄,
    skipWs_before_char ',' hw₄ (by decide), skipWs_before_digits hw₅ hb,
    readInt_complete hb hw₆, skipWs_before_char ',' hw₆ (by decide),
    skipWs_before_dec hw₇ ha, readDec_complete ha hw₈,
    skipWs_before_char ')' hw₈ (by decide)]

lemma findMatch_complete {l pre rest : List Char}
    {x : List Char × List Char × List Char × List Char}
    (hl : l = pre ++ rest) (h : matchAt rest = some x) :
    (findMatch l).isSome := by
  subst hl
  induction pre with
  | nil =>
    cases rest with
    | nil => exact absurd h (by simp [matchAt, readHead])
    | cons c t => simp [findMatch, h]
  | cons p ps ih =>
    rw [List.cons_append, findMatch]
    cases hm : matchAt (p :: (ps ++ rest)) with
    | some y => simp
    | none => simpa using ih

/-- **C2 (amended).** For every input string: either the string contains an
occurrence of the `rgba?( r , g , b , a )` pattern — whitespace-tolerant,
*integer* red/green/blue components (`\d+`) and an integer-or-decimal alpha
(`\d*\.?\d+`) — and the result carries the red/green/blue components divided
by 255 (no clamping: components above 255 give channels above 1) with the
alpha taken verbatim; or no such occurrence exists and the result is the
fixed fallback color with alpha 0.16. -/
theorem hexToRgbaColor_pattern (s : String) :
    (∃ r g b a, SpecRgbaMatch s.data r g b a ∧
      hexToRgbaColor s = ⟨(digitsToNat r : ℚ) / 255, (digitsToNat g : ℚ) / 255,
        (digitsToNat b : ℚ) / 255, decToRat a⟩)
    ∨ ((∀ r g b a, ¬ SpecRgbaMatch s.data r g b a)
        ∧ hexToRgbaColor s = ⟨0, 0, 0, 16/100⟩) := by
  cases hm : findMatch s.data with
  | some x =>
    obtain ⟨r, g, b, a⟩ := x
    left
    obtain ⟨pre, rest, hp, hma⟩ := findMatch_sound hm
    obtain ⟨core, post, hcp, hcm⟩ := matchAt_sound hma
    refine ⟨r, g, b, a, ⟨pre, core, post, by rw [hp, hcp, List.append_assoc], hcm⟩, ?_⟩
    simp [hexToRgbaColor, hm]
  | none =>
    right
    refine ⟨?_, by simp [hexToRgbaColor, hm]⟩
    rintro r g b a ⟨pre, core, post, hs, hcm⟩
    have hfull : s.data = pre ++ (core ++ post) := by rw [hs, List.append_assoc]
    have := findMatch_complete hfull (matchAt_complete hcm post)
    rw [hm] at this
    exact absurd this (by simp)

/-! ## SceneGraphBuilder (tokens.ts lines 62-1223)

Nodes are embedded with the fields the claims observe: a per-build numeric
identity (modelling that each `figma.create*` call yields a fresh node), the
`name`, the node kind, the text body (`characters`), the `visible` flag, the
auto-layout direction, and the ordered children.  Style attributes (fills,
strokes, paddings, effects, sizes) are not modelled: no control flow of the
builder or of the content-application engine depends on them.  The host
allocator is threaded explicitly as a counter, so that two builds from
different allocator states can be compared. -/

/-- Node kinds created by the builder. -/
inductive NodeKind where
  | frame | text | rect | ellipse
deriving DecidableEq, Repr

/-- A scene node (see spec §3 "Scene Node"). -/
structure SNode where
  id : Nat
  name : String
  kind : NodeKind
  chars : String
  visible : Bool
  layout : String
  children : List SNode

/-- A scene node with identity erased: the "topology" of a build. -/
inductive ShapeNode where
  | mk (name : String) (kind : NodeKind) (chars : String) (visible : Bool)
       (layout : String) (children : List ShapeNode)

mutual

/-- Erase node identities, keeping names, kinds, text, visibility, layout and
child order. -/
def stripIds : SNode → ShapeNode
  | .mk _ name kind chars visible layout children =>
    .mk name kind chars visible layout (stripIdsList children)

def stripIdsList : List SNode → List ShapeNode
  | [] => []
  | c :: cs => stripIds c :: stripIdsList cs

end

mutual

/-- All anchor names of a tree: the non-empty node names in preorder. -/
def anchorNames : SNode → List String
  | .mk _ name _ _ _ _ children =>
    (if name = "" then [] else [name]) ++ anchorNamesList children

def anchorNamesList : List SNode → List String
  | [] => []
  | c :: cs => anchorNames c ++ anchorNamesList cs

end

/-- `figma.createFrame()` + auto-layout setup (`createAutoLayout`,
tokens.ts lines 110-124). -/
def createAutoLayoutN (direction : String) (n : Nat) : SNode × Nat :=
  (⟨n, "", .frame, "", true, direction, []⟩, n + 1)

/-- `figma.createFrame()` without auto layout. -/
def createFrameN (n : Nat) : SNode × Nat :=
  (⟨n, "", .frame, "", true, "NONE", []⟩, n + 1)

/-- `figma.createRectangle()`. -/
def createRectangleN (n : Nat) : SNode × Nat :=
  (⟨n, "", .rect, "", true, "NONE", []⟩, n + 1)

/-- `figma.createEllipse()`. -/
def createEllipseN (n : Nat) : SNode × Nat :=
  (⟨n, "", .ellipse, "", true, "NONE", []⟩, n + 1)

/-- `createTextNode(content, variant, fillToken?, maxWidth?)`
(tokens.ts lines 75-108): creates a text node, applies styles (not
modelled) and sets its characters. -/
def createTextNodeN (content variant : String) (fillToken : Option String)
    (maxWidth : Option Nat) (n : Nat) : SNode × Nat :=
  (⟨n, "", .text, content, true, "NONE", []⟩, n + 1)

/-- `parent.appendChild(child)`. -/
def appendChild (parent child : SNode) : SNode :=
  { parent with children := parent.children ++ [child] }

mutual

/-- Rename the first TEXT node in a preorder scan of a subtree, reporting
whether one was found. -/
def renameFirstTextNode : SNode → String → SNode × Bool
  | .mk i name kind chars visible layout children, nm =>
    if kind = .text then (.mk i nm kind chars visible layout children, true)
    else
      match renameFirstTextList children nm with
      | (cs, found) => (.mk i name kind chars visible layout cs, found)

def renameFirstTextList : List SNode → String → List SNode × Bool
  | [], _ => ([], false)
  | c :: cs, nm =>
    match renameFirstTextNode c nm with
    | (c', true) => (c' :: cs, true)
    | (_, false) =>
      match renameFirstTextList cs nm with
      | (cs', found) => (c :: cs', found)

end

/-- `button.findOne(node => node.type === 'TEXT')` followed by a rename of
the found label (the `findOne` searches descendants in preorder). -/
def renameButtonLabel (button : SNode) (nm : String) : SNode :=
  { button with children := (renameFirstTextList button.children nm).1 }

/-- `createButton(label, variant)` (tokens.ts lines 171-215). -/
def createButtonN (label variant : String) (n : Nat) : SNode × Nat :=
  let (button, n) := createAutoLayoutN "HORIZONTAL" n
  if variant = "primary" then
    let (t, n) := createTextNodeN label "captionBold" (some "neutral/50") none n
    (appendChild button t, n)
  else
    let (t, n) := createTextNodeN label "captionBold" (some "neutral/700") none n
    (appendChild button t, n)

/-- `createMetricCard(index, value, label, accent)`
(tokens.ts lines 217-261). -/
def createMetricCardN (index : Nat) (value label accent : String) (n : Nat) :
    SNode × Nat :=
  let (card, n) := createAutoLayoutN "VERTICAL" n
  let card := { card with name := "HeroMetric:" ++ toString index }
  let (valueNode, n) := createTextNodeN value "h3" (some accent) none n
  let valueNode := { valueNode with name := "HeroMetric:" ++ toString index ++ ":Value" }
  let card := appendChild card valueNode
  let (labelNode, n) := createTextNodeN label "caption" (some "neutral/600") (some 200) n
  let labelNode := { labelNode with name := "HeroMetric:" ++ toString index ++ ":Label" }
  let card := appendChild card labelNode
  (card, n)

/-- `createHeroVisualHeader` (tokens.ts lines 307-321). -/
def createHeroVisualHeaderN (n : Nat) : SNode × Nat :=
  let (badge, n) := createAutoLayoutN "HORIZONTAL" n
  let (t1, n) := createTextNodeN "Realtime preview aktif" "captionBold" (some "neutral/600") none n
  let badge := appendChild badge t1
  let (t2, n) := createTextNodeN "Sinkronisasi token live" "caption" (some "primary/500") none n
  let badge := appendChild badge t2
  (badge, n)

/-- The dot loop of `createHeroVisualToolbar`. -/
def addToolbarDots (colors : List String) (dots : SNode) (n : Nat) : SNode × Nat :=
  match colors with
  | [] => (dots, n)
  | _color :: rest =>
    let (dot, n) := createEllipseN n
    addToolbarDots rest (appendChild dots dot) n

/-- `createHeroVisualToolbar` (tokens.ts lines 367-409). -/
def createHeroVisualToolbarN (n : Nat) : SNode × Nat :=
  let (toolbar, n) := createAutoLayoutN "HORIZONTAL" n
  let (left, n) := createAutoLayoutN "HORIZONTAL" n
  let (dots, n) := createAutoLayoutN "HORIZONTAL" n
  let (dots, n) := addToolbarDots ["primary/400", "accent/400", "neutral/400"] dots n
  let left := appendChild left dots
  let (boardText, n) := createTextNodeN "Board Refigma Nova" "captionBold" (some "neutral/600") none n
  let left := appendChild left boardText
  let toolbar := appendChild toolbar left
  let (status, n) := createAutoLayoutN "HORIZONTAL" n
  let (autosave, n) := createTextNodeN "Autosave on" "captionBold" (some "primary/600") none n
  let status := appendChild status autosave
  let toolbar := appendChild toolbar status
  (toolbar, n)

/-- The chip loop of `createHeroVisualMainCard`. -/
def addMainCardChips (chipsContent : List String) (chips : SNode) (n : Nat) :
    SNode × Nat :=
  match chipsContent with
  | [] => (chips, n)
  | chip :: rest =>
    let (pill, n) := createAutoLayoutN "HORIZONTAL" n
    let (t, n) := createTextNodeN chip "captionBold" (some "neutral/600") none n
    let pill := appendChild pill t
    addMainCardChips rest (appendChild chips pill) n

/-- `createHeroVisualMainCard` (tokens.ts lines 433-512). -/
def createHeroVisualMainCardN (n : Nat) : SNode × Nat :=
  let (card, n) := createAutoLayoutN "VERTICAL" n
  let (t1, n) := createTextNodeN "Layout hero siap handoff" "bodyBold" (some "neutral/900") (some 240) n
  let card := appendChild card t1
  let (t2, n) := createTextNodeN
    "Variant desktop, tablet, dan mobile diselaraskan otomatis dengan token Refigma."
    "caption" (some "neutral/600") (some 240) n
  let card := appendChild card t2
  let (progressWrapper, n) := createFrameN n
  let (progressFill, n) := createRectangleN n
  let progressWrapper := appendChild progressWrapper progressFill
  let card := appendChild card progressWrapper
  let (progressRow, n) := createAutoLayoutN "HORIZONTAL" n
  let (t3, n) := createTextNodeN "72% token sinkron" "captionBold" (some "primary/600") none n
  let progressRow := appendChild progressRow t3
  let (t4, n) := createTextNodeN "7 pemeriksaan QA selesai" "caption" (some "neutral/500") none n
  let progressRow := appendChild progressRow t4
  let card := appendChild card progressRow
  let (chips, n) := createAutoLayoutN "HORIZONTAL" n
  let (chips, n) := addMainCardChips
    ["Spec link otomatis", "Akses developer", "Checklist lulus"] chips n
  let card := appendChild card chips
  (card, n)

/-- The sync-item loop of `createHeroVisualSidebar`. -/
def addSyncRows (items : List (String × String)) (syncCard : SNode) (n : Nat) :
    SNode × Nat :=
  match items with
  | [] => (syncCard, n)
  | (time, txt) :: rest =>
    let (row, n) := createAutoLayoutN "HORIZONTAL" n
    let (t1, n) := createTextNodeN time "captionBold" (some "primary/600") none n
    let row := appendChild row t1
    let (t2, n) := createTextNodeN txt "caption" (some "neutral/600") (some 160) n
    let row := appendChild row t2
    addSyncRows rest (appendChild syncCard row) n

/-- `createHeroVisualSidebar` (tokens.ts lines 514-574). -/
def createHeroVisualSidebarN (n : Nat) : SNode × Nat :=
  let (sidebar, n) := createAutoLayoutN "VERTICAL" n
  let (syncCard, n) := createAutoLayoutN "VERTICAL" n
  let (logText, n) := createTextNodeN "Log sinkron" "captionBold" (some "neutral/700") none n
  let syncCard := appendChild syncCard logText
  let (syncCard, n) := addSyncRows
    [("09:42", "Token warna diperbarui"), ("09:10", "Komponen hero disalin")] syncCard n
  let sidebar := appendChild sidebar syncCard
  let (pulseCard, n) := createAutoLayoutN "VERTICAL" n
  let (pulseText, n) := createTextNodeN "Pulse tim" "captionBold" (some "neutral/700") none n
  let pulseCard := appendChild pulseCard pulseText
  let (pulseInfo, n) := createAutoLayoutN "VERTICAL" n
  let (t1, n) := createTextNodeN "18 anggota online" "captionBold" (some "primary/500") none n
  let pulseInfo := appendChild pulseInfo t1
  let (t2, n) := createTextNodeN "Komentar baru dalam 5 menit terakhir" "caption" (some "neutral/500") (some 160) n
  let pulseInfo := appendChild pulseInfo t2
  let pulseCard := appendChild pulseCard pulseInfo
  let sidebar := appendChild sidebar pulseCard
  (sidebar, n)

/-- The avatar loop of `createHeroVisualReviewRow`. -/
def addReviewAvatars (colors : List String) (avatars : SNode) (n : Nat) :
    SNode × Nat :=
  match colors with
  | [] => (avatars, n)
  | _color :: rest =>
    let (avatar, n) := createEllipseN n
    addReviewAvatars rest (appendChild avatars avatar) n

/-- `createHeroVisualReviewRow` (tokens.ts lines 576-596). -/
def createHeroVisualReviewRowN (n : Nat) : SNode × Nat :=
  let (reviewRow, n) := createAutoLayoutN "HORIZONTAL" n
  let (avatars, n) := createAutoLayoutN "HORIZONTAL" n
  let (avatars, n) := addReviewAvatars
    ["primary/500", "accent/500", "primary/300", "accent/400"] avatars n
  let reviewRow := appendChild reviewRow avatars
  let (t, n) := createTextNodeN "Review selesai untuk 4 tim desain" "caption" (some "neutral/600") none n
  let reviewRow := appendChild reviewRow t
  (reviewRow, n)

/-- The stat-card loop of `createHeroVisualStats`. -/
def addStatCards (stats : List (String × String × String)) (statRow : SNode)
    (n : Nat) : SNode × Nat :=
  match stats with
  | [] => (statRow, n)
  | (label, value, hint) :: rest =>
    let (card, n) := createAutoLayoutN "VERTICAL" n
    let (tv, n) := createTextNodeN value "bodyBold" (some "primary/500") none n
    let card := appendChild card tv
    let (tl, n) := createTextNodeN label "captionBold" (some "neutral/600") none n
    let card := appendChild card tl
    let (th, n) := createTextNodeN hint "caption" (some "neutral/500") none n
    let card := appendChild card th
    addStatCards rest (appendChild statRow card) n

/-- `createHeroVisualStats` (tokens.ts lines 598-629). -/
def createHeroVisualStatsN (n : Nat) : SNode × Nat :=
  let (statRow, n) := createAutoLayoutN "HORIZONTAL" n
  addStatCards
    [("Sync aktif", "Realtime", "Tidak ada debt"),
     ("Layout diterbitkan", "18", "+4 minggu ini"),
     ("Checklist QA", "12/12", "Lengkap")] statRow n

/-- `createHeroVisualContent` (tokens.ts lines 411-431). -/
def createHeroVisualContentN (n : Nat) : SNode × Nat :=
  let (body, n) := createAutoLayoutN "VERTICAL" n
  let (layoutRow, n) := createAutoLayoutN "HORIZONTAL" n
  let (mainCard, n) := createHeroVisualMainCardN n
  let layoutRow := appendChild layoutRow mainCard
  let (sidebar, n) := createHeroVisualSidebarN n
  let layoutRow := appendChild layoutRow sidebar
  let body := appendChild body layoutRow
  let (reviewRow, n) := createHeroVisualReviewRowN n
  let body := appendChild body reviewRow
  (body, n)

/-- `createHeroVisualBody` (tokens.ts lines 323-365). -/
def createHeroVisualBodyN (n : Nat) : SNode × Nat :=
  let (preview, n) := createAutoLayoutN "VERTICAL" n
  let (toolbar, n) := createHeroVisualToolbarN n
  let preview := appendChild preview toolbar
  let (content, n) := createHeroVisualContentN n
  let preview := appendChild preview content
  (preview, n)

/-- `createHeroVisual` (tokens.ts lines 263-305). -/
def createHeroVisualN (n : Nat) : SNode × Nat :=
  let (visual, n) := createAutoLayoutN "VERTICAL" n
  let (header, n) := createHeroVisualHeaderN n
  let visual := appendChild visual header
  let (body, n) := createHeroVisualBodyN n
  let visual := appendChild visual body
  let (stats, n) := createHeroVisualStatsN n
  let visual := appendChild visual stats
  (visual, n)

/-- The indexed highlight loop of `createHeroSection`
(tokens.ts lines 722-737). -/
def addHeroHighlightRows (items : List String) (idx : Nat)
    (highlightList : SNode) (n : Nat) : SNode × Nat :=
  match items with
  | [] => (highlightList, n)
  | item :: rest =>
    let (row, n) := createAutoLayoutN "HORIZONTAL" n
    let row := { row with name := "Hero:Highlight:" ++ toString idx }
    let (marker, n) := createRectangleN n
    let row := appendChild row marker
    let (text, n) := createTextNodeN item "caption" (some "neutral/600") (some 480) n
    let text := { text with name := "Hero:Highlight:" ++ toString idx ++ ":Text" }
    let row := appendChild row text
    addHeroHighlightRows rest (idx + 1) (appendChild highlightList row) n

/-- The indexed metric loop of `createHeroSection`
(tokens.ts lines 783-791). -/
def addHeroMetricCards (metrics : List (String × String × String)) (idx : Nat)
    (metricsRow : SNode) (n : Nat) : SNode × Nat :=
  match metrics with
  | [] => (metricsRow, n)
  | (value, label, accent) :: rest =>
    let (card, n) := createMetricCardN idx value label accent n
    addHeroMetricCards rest (idx + 1) (appendChild metricsRow card) n

/-- `createHeroSection` (tokens.ts lines 631-796). -/
def createHeroSectionN (n : Nat) : SNode × Nat :=
  let (hero, n) := createAutoLayoutN "VERTICAL" n
  let hero := { hero with name := "Section/Hero" }
  let (sectionLabel, n) := createTextNodeN "Section/Hero" "captionBold" (some "accent/500") none n
  let sectionLabel := { sectionLabel with name := "Hero:SectionLabel" }
  let hero := appendChild hero sectionLabel
  let (badge, n) := createAutoLayoutN "HORIZONTAL" n
  let (badgeTitle, n) := createTextNodeN "AI Copilot" "captionBold" (some "primary/600") none n
  let badgeTitle := { badgeTitle with name := "Hero:BadgeTitle" }
  let badge := appendChild badge badgeTitle
  let (badgeSubtitle, n) := createTextNodeN "Automasi layout & dokumentasi" "caption" (some "primary/600") none n
  let badgeSubtitle := { badgeSubtitle with name := "Hero:BadgeSubtitle" }
  let badge := appendChild badge badgeSubtitle
  let hero := appendChild hero badge
  let (layout, n) := createAutoLayoutN "HORIZONTAL" n
  let (copy, n) := createAutoLayoutN "VERTICAL" n
  let (heroHeading, n) := createTextNodeN "Bangun hero landing page siap handoff" "h1" (some "neutral/900") (some 560) n
  let heroHeading := { heroHeading with name := "Hero:Heading" }
  let copy := appendChild copy heroHeading
  let (heroSubheading, n) := createTextNodeN
    "Integrasikan auto layout, tokens, dan dokumentasi Refigma agar developer langsung mengirim fitur tanpa revisi ulang."
    "body" (some "neutral/700") (some 520) n
  let heroSubheading := { heroSubheading with name := "Hero:Subheading" }
  let copy := appendChild copy heroSubheading
  let (highlightList, n) := createAutoLayoutN "VERTICAL" n
  let (highlightList, n) := addHeroHighlightRows
    ["Token & styles tersinkron otomatis ke seluruh platform",
     "Template hero, fitur, hingga testimonial siap produksi",
     "Checklist QA dan dokumentasi developer selalu terbaru"] 0 highlightList n
  let copy := appendChild copy highlightList
  let (ctaRow, n) := createAutoLayoutN "HORIZONTAL" n
  let (primaryCta, n) := createButtonN "Mulai sekarang" "primary" n
  let primaryCta := { primaryCta with name := "HeroCTA:Primary" }
  let primaryCta := renameButtonLabel primaryCta "HeroCTA:Primary:Label"
  let ctaRow := appendChild ctaRow primaryCta
  let (secondaryCta, n) := createButtonN "Lihat panduan" "ghost" n
  let secondaryCta := { secondaryCta with name := "HeroCTA:Secondary" }
  let secondaryCta := renameButtonLabel secondaryCta "HeroCTA:Secondary:Label"
  let ctaRow := appendChild ctaRow secondaryCta
  let copy := appendChild copy ctaRow
  let (assurance, n) := createAutoLayoutN "HORIZONTAL" n
  let (dot, n) := createEllipseN n
  let assurance := appendChild assurance dot
  let (assuranceCopy, n) := createTextNodeN "Dipercaya 120+ tim produk di Asia Tenggara" "caption" (some "neutral/600") none n
  let assuranceCopy := { assuranceCopy with name := "Hero:Assurance" }
  let assurance := appendChild assurance assuranceCopy
  let copy := appendChild copy assurance
  let layout := appendChild layout copy
  let (heroVisual, n) := createHeroVisualN n
  let layout := appendChild layout heroVisual
  let hero := appendChild hero layout
  let (metricsRow, n) := createAutoLayoutN "HORIZONTAL" n
  let (metricsRow, n) := addHeroMetricCards
    [("72%", "Token sinkron dalam sekali klik", "primary/500"),
     ("2x", "Lebih cepat menyiapkan handoff", "accent/500"),
     ("5 menit", "Update dokumen developer otomatis", "primary/600")] 0 metricsRow n
  let hero := appendChild hero metricsRow
  (hero, n)

/-- The indexed bullet loop of `createTestimonialCopyColumn`
(tokens.ts lines 902-917). -/
def addTestimonialBulletRows (items : List String) (idx : Nat)
    (bulletList : SNode) (n : Nat) : SNode × Nat :=
  match items with
  | [] => (bulletList, n)
  | item :: rest =>
    let (row, n) := createAutoLayoutN "HORIZONTAL" n
    let row := { row with name := "Testimonial:Bullet:" ++ toString idx }
    let (mark, n) := createRectangleN n
    let row := appendChild row mark
    let (bulletText, n) := createTextNodeN item "caption" (some "neutral/100") (some 420) n
    let bulletText := { bulletText with name := "Testimonial:Bullet:" ++ toString idx ++ ":Text" }
    let row := appendChild row bulletText
    addTestimonialBulletRows rest (idx + 1) (appendChild bulletList row) n

/-- `createTestimonialCopyColumn` (tokens.ts lines 877-947). -/
def createTestimonialCopyColumnN (n : Nat) : SNode × Nat :=
  let (column, n) := createAutoLayoutN "VERTICAL" n
  let (quote, n) := createTextNodeN
    "\"Sejak Refigma, diskusi desain ke dev tinggal satu sumber kebenaran.\""
    "h3" (some "neutral/50") (some 420) n
  let quote := { quote with name := "Testimonial:Quote" }
  let column := appendChild column quote
  let (bulletList, n) := createAutoLayoutN "VERTICAL" n
  let (bulletList, n) := addTestimonialBulletRows
    ["Token, referensi, dan dokumentasi siap konsumsi developer.",
     "Stakeholder review cepat karena preview selalu up to date.",
     "Sprint planning lebih singkat berkat checklist QA otomatis."] 0 bulletList n
  let column := appendChild column bulletList
  let (footer, n) := createAutoLayoutN "VERTICAL" n
  let (attribution, n) := createTextNodeN "Tim produk OrbitPay" "captionBold" (some "neutral/100") none n
  let attribution := { attribution with name := "Testimonial:Attribution" }
  let footer := appendChild footer attribution
  let (attributionRole, n) := createTextNodeN "Skala 12 produk digital" "caption" (some "neutral/200") none n
  let attributionRole := { attributionRole with name := "Testimonial:AttributionRole" }
  let footer := appendChild footer attributionRole
  let column := appendChild column footer
  let (callout, n) := createAutoLayoutN "HORIZONTAL" n
  let (calloutText, n) := createTextNodeN "Skor kepuasan 4.9/5" "captionBold" (some "primary/600") none n
  let calloutText := { calloutText with name := "Testimonial:Callout" }
  let callout := appendChild callout calloutText
  let column := appendChild column callout
  (column, n)

/-- `buildTestimonialCard(data)` (tokens.ts lines 1003-1099). -/
def buildTestimonialCardN (quote nm role accent : String)
    (metric : Option String) (n : Nat) : SNode × Nat :=
  let (card, n) := createAutoLayoutN "VERTICAL" n
  let (quoteText, n) := createTextNodeN quote "body" (some "neutral/900") (some 320) n
  let card := appendChild card quoteText
  let (divider, n) := createRectangleN n
  let card := appendChild card divider
  let (footer, n) := createAutoLayoutN "HORIZONTAL" n
  let (avatar, n) := createEllipseN n
  let footer := appendChild footer avatar
  let (info, n) := createAutoLayoutN "VERTICAL" n
  let (nameText, n) := createTextNodeN nm "bodyBold" (some "neutral/800") none n
  let info := appendChild info nameText
  let (roleText, n) := createTextNodeN role "caption" (some "neutral/500") none n
  let info := appendChild info roleText
  let footer := appendChild footer info
  let card := appendChild card footer
  match metric with
  | some m =>
    let (metricBadge, n) := createAutoLayoutN "HORIZONTAL" n
    let (metricText, n) := createTextNodeN m "captionBold" (some "neutral/50") none n
    let metricBadge := appendChild metricBadge metricText
    (appendChild card metricBadge, n)
  | none => (card, n)

/-- `createTestimonialCards` (tokens.ts lines 949-1001). -/
def createTestimonialCardsN (n : Nat) : SNode × Nat :=
  let (grid, n) := createAutoLayoutN "HORIZONTAL" n
  let (leftColumn, n) := createAutoLayoutN "VERTICAL" n
  let (rightColumn, n) := createAutoLayoutN "VERTICAL" n
  let (card0, n) := buildTestimonialCardN
    "\"Refigma menjadikan token dan komponen kami satu sumber kebenaran. Dev tinggal tarik.\""
    "Salsa Pradipta" "VP Design DaringLabs" "primary/500" (some "55% lebih cepat") n
  let leftColumn := appendChild leftColumn card0
  let (card1, n) := buildTestimonialCardN
    "\"Dokumentasi developer langsung tersusun. QA tidak lagi copy manual.\""
    "Kevin Mahardika" "Head of Product Lokalite" "accent/500" (some "0 bug layout") n
  let leftColumn := appendChild leftColumn card1
  let (card2, n) := buildTestimonialCardN
    "\"Stakeholder bisa review versi terbaru tanpa minta file tambahan.\""
    "Chandra Tanu" "Founder GridStack" "primary/400" (some "3x siklus review") n
  let rightColumn := appendChild rightColumn card2
  let grid := appendChild grid leftColumn
  let grid := appendChild grid rightColumn
  (grid, n)

/-- `createTestimonialSection` (tokens.ts lines 798-875). -/
def createTestimonialSectionN (n : Nat) : SNode × Nat :=
  let (sect, n) := createAutoLayoutN "VERTICAL" n
  let sect := { sect with name := "Section/Testimonials" }
  let (heading, n) := createAutoLayoutN "VERTICAL" n
  let (headingBadge, n) := createAutoLayoutN "HORIZONTAL" n
  let (headingBadgeText, n) := createTextNodeN "Suara tim produk" "captionBold" (some "neutral/600") none n
  let headingBadgeText := { headingBadgeText with name := "Testimonial:BadgeTitle" }
  let headingBadge := appendChild headingBadge headingBadgeText
  let heading := appendChild heading headingBadge
  let (testimonialHeading, n) := createTextNodeN "Bagaimana Refigma mempercepat kolaborasi" "h2" (some "neutral/50") none n
  let testimonialHeading := { testimonialHeading with name := "Testimonial:Heading" }
  let heading := appendChild heading testimonialHeading
  let (testimonialSubtitle, n) := createTextNodeN
    "Ritme sprint lebih ringan karena handoff, dokumentasi, dan perubahan token berjalan serentak."
    "body" (some "neutral/100") (some 560) n
  let testimonialSubtitle := { testimonialSubtitle with name := "Testimonial:Subtitle" }
  let heading := appendChild heading testimonialSubtitle
  let sect := appendChild sect heading
  let (content, n) := createAutoLayoutN "HORIZONTAL" n
  let (copyColumn, n) := createTestimonialCopyColumnN n
  let content := appendChild content copyColumn
  let (cards, n) := createTestimonialCardsN n
  let content := appendChild content cards
  let sect := appendChild sect content
  (sect, n)

/-- `createCTASection` (tokens.ts lines 1101-1168). -/
def createCTASectionN (n : Nat) : SNode × Nat :=
  let (sect, n) := createAutoLayoutN "VERTICAL" n
  let sect := { sect with name := "Section/CTA" }
  let (ctaHeading, n) := createTextNodeN "Siap menjaga konsistensi desain?" "h2" (some "neutral/50") (some 640) n
  let ctaHeading := { ctaHeading with name := "CTA:Heading" }
  let sect := appendChild sect ctaHeading
  let (ctaBody, n) := createTextNodeN
    "Aktifkan Refigma dan biarkan AI mendokumentasikan setiap keputusan desain."
    "body" (some "neutral/100") (some 560) n
  let ctaBody := { ctaBody with name := "CTA:Body" }
  let sect := appendChild sect ctaBody
  let (actions, n) := createAutoLayoutN "HORIZONTAL" n
  let (ctaPrimary, n) := createButtonN "Mulai gratis" "primary" n
  let ctaPrimary := { ctaPrimary with name := "CTA:PrimaryButton" }
  let ctaPrimary := renameButtonLabel ctaPrimary "CTA:PrimaryLabel"
  let actions := appendChild actions ctaPrimary
  let (ctaSecondary, n) := createButtonN "Lihat changelog" "ghost" n
  let ctaSecondary := { ctaSecondary with name := "CTA:SecondaryButton" }
  let ctaSecondary := renameButtonLabel ctaSecondary "CTA:SecondaryLabel"
  let actions := appendChild actions ctaSecondary
  let sect := appendChild sect actions
  (sect, n)

/-- `applyTokensDemo` (tokens.ts lines 1170-1223): builds the landing frame
with its three sections.  (The append to the current page is modelled by the
orchestrator.) -/
def applyTokensDemoN (n : Nat) : SNode × Nat :=
  let (landing, n) := createAutoLayoutN "VERTICAL" n
  let landing := { landing with name := "Template/Landing-Refigma" }
  let (hero, n) := createHeroSectionN n
  let landing := appendChild landing hero
  let (testimonials, n) := createTestimonialSectionN n
  let landing := appendChild landing testimonials
  let (cta, n) := createCTASectionN n
  let landing := appendChild landing cta
  (landing, n)

/-! ## ContentApplicationEngine (`applyGeminiContent`, `setText`, `findText`
in the plugin main module)

The payload mirrors the `GeminiSiteContent` interface: everything optional.
`setText(findText(landing, name), value)` becomes a functional update of the
first TEXT node carrying the name (a no-op when the anchor is missing or the
value is null/undefined); row visibility toggles update the first node with
the row name.  JS string truthiness (`highlight && ...`) makes an empty
string count as absent for repeatable rows. -/

/-- `GeminiSiteContent.hero`. -/
structure GeminiHero where
  title : Option String
  subtitle : Option String
  primaryCta : Option String
  secondaryCta : Option String
  assurance : Option String
  highlights : Option (List String)

/-- One entry of `GeminiSiteContent.metrics`. -/
structure GeminiMetric where
  value : Option String
  label : Option String

/-- `GeminiSiteContent.testimonial`. -/
structure GeminiTestimonial where
  heading : Option String
  subtitle : Option String
  quote : Option String
  bullets : Option (List String)
  attribution : Option String
  attributionRole : Option String
  callout : Option String

/-- `GeminiSiteContent.cta`. -/
structure GeminiCta where
  title : Option String
  subtitle : Option String
  primaryCta : Option String
  secondaryCta : Option String

/-- The full optional-everywhere content payload. -/
structure GeminiSiteContent where
  hero : Option GeminiHero
  metrics : Option (List GeminiMetric)
  testimonial : Option GeminiTestimonial
  cta : Option GeminiCta

/-- `content.hero ? content.hero : {}` — the empty object. -/
def emptyHero : GeminiHero := ⟨none, none, none, none, none, none⟩

/-- `content.testimonial ? content.testimonial : {}`. -/
def emptyTestimonial : GeminiTestimonial := ⟨none, none, none, none, none, none, none⟩

/-- `content.cta ? content.cta : {}`. -/
def emptyCta : GeminiCta := ⟨none, none, none, none⟩

mutual

/-- `findText(root, name)` (`root.findOne(node => node.type === 'TEXT' &&
node.name === name)`), returning the found node's characters: first match
in a preorder depth-first scan. -/
def findTextN : SNode → String → Option String
  | .mk _ name kind chars _ _ children, nm =>
    if kind = .text ∧ name = nm then some chars else findTextF children nm

def findTextF : List SNode → String → Option String
  | [], _ => none
  | c :: cs, nm =>
    match findTextN c nm with
    | some s => some s
    | none => findTextF cs nm

end

mutual

/-- `root.findOne(node => node.name === name)`, returning the found node's
`visible` flag. -/
def findVisibleN : SNode → String → Option Bool
  | .mk _ name _ _ visible _ children, nm =>
    if name = nm then some visible else findVisibleF children nm

def findVisibleF : List SNode → String → Option Bool
  | [], _ => none
  | c :: cs, nm =>
    match findVisibleN c nm with
    | some b => some b
    | none => findVisibleF cs nm

end

mutual

/-- `node.characters = value` on the first TEXT node named `nm` (the node
`findText` would return), with a flag reporting whether one was found. -/
def setTextN : SNode → String → String → SNode × Bool
  | .mk i name kind chars visible layout children, nm, v =>
    if kind = .text ∧ name = nm then
      (.mk i name kind v visible layout children, true)
    else
      (.mk i name kind chars visible layout (setTextF children nm v).1,
       (setTextF children nm v).2)

def setTextF : List SNode → String → String → List SNode × Bool
  | [], _, _ => ([], false)
  | c :: cs, nm, v =>
    if (setTextN c nm v).2 then ((setTextN c nm v).1 :: cs, true)
    else (c :: (setTextF cs nm v).1, (setTextF cs nm v).2)

end

mutual

/-- `node.visible = b` on the first node named `nm` (the node the row
`findOne` would return). -/
def setVisibleN : SNode → String → Bool → SNode × Bool
  | .mk i name kind chars visible layout children, nm, b =>
    if name = nm then
      (.mk i name kind chars b layout children, true)
    else
      (.mk i name kind chars visible layout (setVisibleF children nm b).1,
       (setVisibleF children nm b).2)

def setVisibleF : List SNode → String → Bool → List SNode × Bool
  | [], _, _ => ([], false)
  | c :: cs, nm, b =>
    if (setVisibleN c nm b).2 then ((setVisibleN c nm b).1 :: cs, true)
    else (c :: (setVisibleF cs nm b).1, (setVisibleF cs nm b).2)

end

/-- `await setText(findText(landing, nm), value)`: a no-op when the value is
null/undefined or when no TEXT node carries the name. -/
def setTextByName (root : SNode) (nm : String) (value : Option String) : SNode :=
  match value with
  | none => root
  | some v => (setTextN root nm v).1

/-- `if (row) row.visible = b` after a row lookup by name: a no-op when no
node carries the name. -/
def setVisibleByName (root : SNode) (nm : String) (b : Bool) : SNode :=
  (setVisibleN root nm b).1

/-- The anchor name `Hero:Highlight:{i}`. -/
def heroHighlightRowName (i : Nat) : String := "Hero:Highlight:" ++ toString i

/-- The anchor name `Hero:Highlight:{i}:Text`. -/
def heroHighlightTextName (i : Nat) : String :=
  "Hero:Highlight:" ++ toString i ++ ":Text"

/-- The anchor name `HeroMetric:{i}:Value`. -/
def metricValueName (i : Nat) : String := "HeroMetric:" ++ toString i ++ ":Value"

/-- The anchor name `HeroMetric:{i}:Label`. -/
def metricLabelName (i : Nat) : String := "HeroMetric:" ++ toString i ++ ":Label"

/-- The anchor name `HeroMetric:{i}` (the metric row container). -/
def metricRowName (i : Nat) : String := "HeroMetric:" ++ toString i

/-- The anchor name `Testimonial:Bullet:{i}`. -/
def bulletRowName (i : Nat) : String := "Testimonial:Bullet:" ++ toString i

/-- The anchor name `Testimonial:Bullet:{i}:Text`. -/
def bulletTextName (i : Nat) : String :=
  "Testimonial:Bullet:" ++ toString i ++ ":Text"

/-- One iteration of the highlight loop (plugin main module): set the row
text and show the row when the item is truthy and the text anchor exists,
otherwise hide the row. -/
def applyHighlightRow (landing : SNode) (highlightList : List String)
    (i : Nat) : SNode :=
  if highlightList.getD i "" ≠ ""
      ∧ (findTextN landing (heroHighlightTextName i)).isSome then
    setVisibleByName
      ((setTextN landing (heroHighlightTextName i) (highlightList.getD i "")).1)
      (heroHighlightRowName i) true
  else
    setVisibleByName landing (heroHighlightRowName i) false

/-- One iteration of the metric loop: conditionally set the value/label text
anchors; never touch visibility. -/
def applyMetricRow (landing : SNode) (metrics : List GeminiMetric) (i : Nat) :
    SNode :=
  setTextByName
    (setTextByName landing (metricValueName i)
      (match metrics.get? i with | some m => m.value | none => none))
    (metricLabelName i)
    (match metrics.get? i with | some m => m.label | none => none)

/-- One iteration of the testimonial bullet loop (same policy as the
highlight loop). -/
def applyBulletRow (landing : SNode) (bullets : List String) (i : Nat) :
    SNode :=
  if bullets.getD i "" ≠ "" ∧ (findTextN landing (bulletTextName i)).isSome then
    setVisibleByName
      ((setTextN landing (bulletTextName i) (bullets.getD i "")).1)
      (bulletRowName i) true
  else
    setVisibleByName landing (bulletRowName i) false

/-- `applyGeminiContent(landing, content)` (plugin main module): the full
sequential mutation pass, in source order. -/
def applyGeminiContent (landing : SNode) (content : GeminiSiteContent) : SNode :=
  let hero := content.hero.getD emptyHero
  let landing := setTextByName landing "Hero:Heading" hero.title
  let landing := setTextByName landing "Hero:Subheading" hero.subtitle
  let landing := setTextByName landing "HeroCTA:Primary:Label" hero.primaryCta
  let landing := setTextByName landing "HeroCTA:Secondary:Label" hero.secondaryCta
  let landing := setTextByName landing "Hero:Assurance" hero.assurance
  let highlightList := hero.highlights.getD []
  let landing := applyHighlightRow landing highlightList 0
  let landing := applyHighlightRow landing highlightList 1
  let landing := applyHighlightRow landing highlightList 2
  let metrics := content.metrics.getD []
  let landing := applyMetricRow landing metrics 0
  let landing := applyMetricRow landing metrics 1
  let landing := applyMetricRow landing metrics 2
  let testimonial := content.testimonial.getD emptyTestimonial
  let landing := setTextByName landing "Testimonial:Heading" testimonial.heading
  let landing := setTextByName landing "Testimonial:Subtitle" testimonial.subtitle
  let landing := setTextByName landing "Testimonial:Quote" testimonial.quote
  let landing := setTextByName landing "Testimonial:Attribution" testimonial.attribution
  let landing := setTextByName landing "Testimonial:AttributionRole" testimonial.attributionRole
  let landing := setTextByName landing "Testimonial:Callout" testimonial.callout
  let bullets := testimonial.bullets.getD []
  let landing := applyBulletRow landing bullets 0
  let landing := applyBulletRow landing bullets 1
  let landing := applyBulletRow landing bullets 2
  let cta := content.cta.getD emptyCta
  let landing := setTextByName landing "CTA:Heading" cta.title
  let landing := setTextByName landing "CTA:Body" cta.subtitle
  let landing := setTextByName landing "CTA:PrimaryLabel" cta.primaryCta
  setTextByName landing "CTA:SecondaryLabel" cta.secondaryCta

/-! ### Locality of the name-keyed updates

Each update touches exactly the first node the corresponding lookup finds:
observations keyed by other names, and observations of fields the update
does not write, are preserved. -/

mutual

theorem findTextN_setText_ne : ∀ (node : SNode) (nm v nm' : String),
    nm' ≠ nm → findTextN (setTextN node nm v).1 nm' = findTextN node nm'
  | .mk i name kind chars visible layout children, nm, v, nm', h => by
    by_cases htop : kind = NodeKind.text ∧ name = nm
    · have hname : ¬(kind = NodeKind.text ∧ name = nm') := by
        rintro ⟨hk, hn⟩
        exact h (hn ▸ htop.2)
      simp [setTextN, findTextN, htop, hname, Ne.symm h]
    · by_cases htop' : kind = NodeKind.text ∧ name = nm'
      · simp [setTextN, findTextN, htop, htop', h, Ne.symm h]
      · simp [setTextN, findTextN, htop, htop',
          findTextF_setText_ne children nm v nm' h]

theorem findTextF_setText_ne : ∀ (l : List SNode) (nm v nm' : String),
    nm' ≠ nm → findTextF (setTextF l nm v).1 nm' = findTextF l nm'
  | [], _, _, _, _ => rfl
  | c :: cs, nm, v, nm', h => by
    by_cases hc : (setTextN c nm v).2 = true
    · simp only [setTextF, if_pos hc, findTextF]
      rw [findTextN_setText_ne c nm v nm' h]
    · simp only [setTextF, if_neg hc, findTextF]
      rw [findTextF_setText_ne cs nm v nm' h]

end

mutual

theorem setTextN_flag : ∀ (node : SNode) (nm v : String),
    (setTextN node nm v).2 = (findTextN node nm).isSome
  | .mk i name kind chars visible layout children, nm, v => by
    by_cases htop : kind = NodeKind.text ∧ name = nm
    · simp [setTextN, findTextN, htop]
    · simp [setTextN, findTextN, htop, setTextF_flag children nm v]

theorem setTextF_flag : ∀ (l : List SNode) (nm v : String),
    (setTextF l nm v).2 = (findTextF l nm).isSome
  | [], _, _ => rfl
  | c :: cs, nm, v => by
    by_cases hc : (setTextN c nm v).2 = true
    · have hs := (setTextN_flag c nm v) ▸ hc
      obtain ⟨t, ht⟩ := Option.isSome_iff_exists.mp hs
      simp [setTextF, hc, findTextF, ht]
    · have hflag := setTextN_flag c nm v
      have hnone : findTextN c nm = none := by
        cases hfind : findTextN c nm with
        | none => rfl
        | some t =>
          rw [hfind] at hflag
          simp at hflag
          exact absurd hflag hc
      simp [setTextF, hc, findTextF, hnone, setTextF_flag cs nm v]

end

mutual

theorem findTextN_setText_eq : ∀ (node : SNode) (nm v : String),
    (setTextN node nm v).2 = true →
    findTextN (setTextN node nm v).1 nm = some v
  | .mk i name kind chars visible layout children, nm, v, hf => by
    by_cases htop : kind = NodeKind.text ∧ name = nm
    · simp [setTextN, findTextN, htop]
    · simp only [setTextN, if_neg htop] at hf ⊢
      simp only [findTextN, if_neg htop]
      exact findTextF_setText_eq children nm v hf

theorem findTextF_setText_eq : ∀ (l : List SNode) (nm v : String),
    (setTextF l nm v).2 = true →
    findTextF (setTextF l nm v).1 nm = some v
  | [], _, _, hf => absurd hf (by simp [setTextF])
  | c :: cs, nm, v, hf => by
    by_cases hc : (setTextN c nm v).2 = true
    · simp only [setTextF, if_pos hc, findTextF]
      rw [findTextN_setText_eq c nm v hc]
    · simp only [setTextF, if_neg hc] at hf ⊢
      have hflag := setTextN_flag c nm v
      have hnone : findTextN c nm = none := by
        cases hfind : findTextN c nm with
        | none => rfl
        | some t =>
          rw [hfind] at hflag
          simp at hflag
          exact absurd hflag hc
      simp only [findTextF, hnone]
      exact findTextF_setText_eq cs nm v hf

end

mutual

theorem findVisibleN_setText : ∀ (node : SNode) (nm v nm' : String),
    findVisibleN (setTextN node nm v).1 nm' = findVisibleN node nm'
  | .mk i name kind chars visible layout children, nm, v, nm' => by
    by_cases htop : kind = NodeKind.text ∧ name = nm
    · simp [setTextN, findVisibleN, htop]
    · by_cases h2 : name = nm'
      · subst h2
        simp [setTextN, findVisibleN, htop]
      · simp [setTextN, findVisibleN, htop, h2,
          findVisibleF_setText children nm v nm']

theorem findVisibleF_setText : ∀ (l : List SNode) (nm v nm' : String),
    findVisibleF (setTextF l nm v).1 nm' = findVisibleF l nm'
  | [], _, _, _ => rfl
  | c :: cs, nm, v, nm' => by
    by_cases hc : (setTextN c nm v).2 = true
    · simp only [setTextF, if_pos hc, findVisibleF]
      rw [findVisibleN_setText c nm v nm']
    · simp only [setTextF, if_neg hc, findVisibleF]
      rw [findVisibleF_setText cs nm v nm']

end

mutual

theorem findTextN_setVisible : ∀ (node : SNode) (nm : String) (b : Bool)
    (nm' : String),
    findTextN (setVisibleN node nm b).1 nm' = findTextN node nm'
  | .mk i name kind chars visible layout children, nm, b, nm' => by
    by_cases htop : name = nm
    · simp [setVisibleN, findTextN, htop]
    · by_cases h2 : kind = NodeKind.text ∧ name = nm'
      · obtain ⟨hk, hn⟩ := h2
        subst hk
        subst hn
        simp [setVisibleN, findTextN, htop]
      · simp [setVisibleN, findTextN, htop, h2,
          findTextF_setVisible children nm b nm']

theorem findTextF_setVisible : ∀ (l : List SNode) (nm : String) (b : Bool)
    (nm' : String),
    findTextF (setVisibleF l nm b).1 nm' = findTextF l nm'
  | [], _, _, _ => rfl
  | c :: cs, nm, b, nm' => by
    by_cases hc : (setVisibleN c nm b).2 = true
    · simp only [setVisibleF, if_pos hc, findTextF]
      rw [findTextN_setVisible c nm b nm']
    · simp only [setVisibleF, if_neg hc, findTextF]
      rw [findTextF_setVisible cs nm b nm']

end

mutual

theorem findVisibleN_setVisible_ne : ∀ (node : SNode) (nm : String) (b : Bool)
    (nm' : String), nm' ≠ nm →
    findVisibleN (setVisibleN node nm b).1 nm' = findVisibleN node nm'
  | .mk i name kind chars visible layout children, nm, b, nm', h => by
    by_cases htop : name = nm
    · have hname : ¬(name = nm') := fun hn => h (hn ▸ htop)
      simp [setVisibleN, findVisibleN, htop, hname, Ne.symm h]
    · by_cases h2 : name = nm'
      · simp [setVisibleN, findVisibleN, htop, h2, h, Ne.symm h]
      · simp [setVisibleN, findVisibleN, htop, h2,
          findVisibleF_setVisible_ne children nm b nm' h]

theorem findVisibleF_setVisible_ne : ∀ (l : List SNode) (nm : String)
    (b : Bool) (nm' : String), nm' ≠ nm →
    findVisibleF (setVisibleF l nm b).1 nm' = findVisibleF l nm'
  | [], _, _, _, _ => rfl
  | c :: cs, nm, b, nm', h => by
    by_cases hc : (setVisibleN c nm b).2 = true
    · simp only [setVisibleF, if_pos hc, findVisibleF]
      rw [findVisibleN_setVisible_ne c nm b nm' h]
    · simp only [setVisibleF, if_neg hc, findVisibleF]
      rw [findVisibleF_setVisible_ne cs nm b nm' h]

end

mutual

theorem setVisibleN_flag : ∀ (node : SNode) (nm : String) (b : Bool),
    (setVisibleN node nm b).2 = (findVisibleN node nm).isSome
  | .mk i name kind chars visible layout children, nm, b => by
    by_cases htop : name = nm
    · simp [setVisibleN, findVisibleN, htop]
    · simp [setVisibleN, findVisibleN, htop, setVisibleF_flag children nm b]

theorem setVisibleF_flag : ∀ (l : List SNode) (nm : String) (b : Bool),
    (setVisibleF l nm b).2 = (findVisibleF l nm).isSome
  | [], _, _ => rfl
  | c :: cs, nm, b => by
    by_cases hc : (setVisibleN c nm b).2 = true
    · have hs := (setVisibleN_flag c nm b) ▸ hc
      obtain ⟨t, ht⟩ := Option.isSome_iff_exists.mp hs
      simp [setVisibleF, hc, findVisibleF, ht]
    · have hflag := setVisibleN_flag c nm b
      have hnone : findVisibleN c nm = none := by
        cases hfind : findVisibleN c nm with
        | none => rfl
        | some t =>
          rw [hfind] at hflag
          simp at hflag
          exact absurd hflag hc
      simp [setVisibleF, hc, findVisibleF, hnone, setVisibleF_flag cs nm b]

end

mutual

theorem findVisibleN_setVisible_eq : ∀ (node : SNode) (nm : String) (b : Bool),
    (setVisibleN node nm b).2 = true →
    findVisibleN (setVisibleN node nm b).1 nm = some b
  | .mk i name kind chars visible layout children, nm, b, hf => by
    by_cases htop : name = nm
    · simp [setVisibleN, findVisibleN, htop]
    · simp only [setVisibleN, if_neg htop] at hf ⊢
      simp only [findVisibleN, if_neg htop]
      exact findVisibleF_setVisible_eq children nm b hf

theorem findVisibleF_setVisible_eq : ∀ (l : List SNode) (nm : String)
    (b : Bool), (setVisibleF l nm b).2 = true →
    findVisibleF (setVisibleF l nm b).1 nm = some b
  | [], _, _, hf => absurd hf (by simp [setVisibleF])
  | c :: cs, nm, b, hf => by
    by_cases hc : (setVisibleN c nm b).2 = true
    · simp only [setVisibleF, if_pos hc, findVisibleF]
      rw [findVisibleN_setVisible_eq c nm b hc]
    · simp only [setVisibleF, if_neg hc] at hf ⊢
      have hflag := setVisibleN_flag c nm b
      have hnone : findVisibleN c nm = none := by
        cases hfind : findVisibleN c nm with
        | none => rfl
        | some t =>
          rw [hfind] at hflag
          simp at hflag
          exact absurd hflag hc
      simp only [findVisibleF, hnone]
      exact findVisibleF_setVisible_eq cs nm b hf

end

/-! ### Step-level locality of the application pass -/

lemma setTextByName_none (t : SNode) (nm : String) :
    setTextByName t nm none = t := rfl

@[simp] lemma findTextN_setTextByName_ne (t : SNode) (nm : String) (v : Option String)
    (nm' : String) (h : nm' ≠ nm) :
    findTextN (setTextByName t nm v) nm' = findTextN t nm' := by
  cases v with
  | none => rfl
  | some v => exact findTextN_setText_ne t nm v nm' h

@[simp] lemma findVisibleN_setTextByName (t : SNode) (nm : String) (v : Option String)
    (nm' : String) :
    findVisibleN (setTextByName t nm v) nm' = findVisibleN t nm' := by
  cases v with
  | none => rfl
  | some v => exact findVisibleN_setText t nm v nm'

lemma findTextN_setTextByName_some (t : SNode) (nm v : String)
    (hex : (findTextN t nm).isSome = true) :
    findTextN (setTextByName t nm (some v)) nm = some v :=
  findTextN_setText_eq t nm v ((setTextN_flag t nm v).symm ▸ hex)

@[simp] lemma findVisibleN_setVisibleByName_ne (t : SNode) (nm : String) (b : Bool)
    (nm' : String) (h : nm' ≠ nm) :
    findVisibleN (setVisibleByName t nm b) nm' = findVisibleN t nm' :=
  findVisibleN_setVisible_ne t nm b nm' h

@[simp] lemma findTextN_setVisibleByName (t : SNode) (nm : String) (b : Bool)
    (nm' : String) :
    findTextN (setVisibleByName t nm b) nm' = findTextN t nm' :=
  findTextN_setVisible t nm b nm'

lemma findVisibleN_setVisibleByName_some (t : SNode) (nm : String) (b : Bool)
    (hex : (findVisibleN t nm).isSome = true) :
    findVisibleN (setVisibleByName t nm b) nm = some b :=
  findVisibleN_setVisible_eq t nm b ((setVisibleN_flag t nm b).symm ▸ hex)

@[simp] lemma findTextN_applyHighlightRow_ne (t : SNode) (items : List String)
    (i : Nat) (nm' : String) (h : nm' ≠ heroHighlightTextName i) :
    findTextN (applyHighlightRow t items i) nm' = findTextN t nm' := by
  unfold applyHighlightRow
  split_ifs with hcond
  · rw [findTextN_setVisibleByName, findTextN_setText_ne _ _ _ _ h]
  · rw [findTextN_setVisibleByName]

@[simp] lemma findVisibleN_applyHighlightRow_ne (t : SNode) (items : List String)
    (i : Nat) (nm' : String) (h : nm' ≠ heroHighlightRowName i) :
    findVisibleN (applyHighlightRow t items i) nm' = findVisibleN t nm' := by
  unfold applyHighlightRow
  split_ifs with hcond
  · rw [findVisibleN_setVisibleByName_ne _ _ _ _ h, findVisibleN_setText]
  · rw [findVisibleN_setVisibleByName_ne _ _ _ _ h]

lemma applyHighlightRow_provides (t : SNode) (items : List String) (i : Nat)
    (hit : items.getD i "" ≠ "")
    (hex : (findTextN t (heroHighlightTextName i)).isSome = true) :
    findTextN (applyHighlightRow t items i) (heroHighlightTextName i)
      = some (items.getD i "")
    ∧ ((findVisibleN t (heroHighlightRowName i)).isSome = true →
        findVisibleN (applyHighlightRow t items i) (heroHighlightRowName i)
          = some true) := by
  unfold applyHighlightRow
  rw [if_pos ⟨hit, hex⟩]
  constructor
  · rw [findTextN_setVisibleByName]
    exact findTextN_setText_eq t _ _ ((setTextN_flag t _ _).symm ▸ hex)
  · intro hrow
    refine findVisibleN_setVisibleByName_some _ _ _ ?_
    rw [findVisibleN_setText]
    exact hrow

lemma applyHighlightRow_absent (t : SNode) (items : List String) (i : Nat)
    (hcond : ¬(items.getD i "" ≠ ""
      ∧ (findTextN t (heroHighlightTextName i)).isSome = true)) :
    findTextN (applyHighlightRow t items i) (heroHighlightTextName i)
      = findTextN t (heroHighlightTextName i)
    ∧ ((findVisibleN t (heroHighlightRowName i)).isSome = true →
        findVisibleN (applyHighlightRow t items i) (heroHighlightRowName i)
          = some false) := by
  unfold applyHighlightRow
  rw [if_neg hcond]
  exact ⟨findTextN_setVisibleByName _ _ _ _,
    fun hrow => findVisibleN_setVisibleByName_some _ _ _ hrow⟩

@[simp] lemma findTextN_applyBulletRow_ne (t : SNode) (items : List String)
    (i : Nat) (nm' : String) (h : nm' ≠ bulletTextName i) :
    findTextN (applyBulletRow t items i) nm' = findTextN t nm' := by
  unfold applyBulletRow
  split_ifs with hcond
  · rw [findTextN_setVisibleByName, findTextN_setText_ne _ _ _ _ h]
  · rw [findTextN_setVisibleByName]

@[simp] lemma findVisibleN_applyBulletRow_ne (t : SNode) (items : List String)
    (i : Nat) (nm' : String) (h : nm' ≠ bulletRowName i) :
    findVisibleN (applyBulletRow t items i) nm' = findVisibleN t nm' := by
  unfold applyBulletRow
  split_ifs with hcond
  · rw [findVisibleN_setVisibleByName_ne _ _ _ _ h, findVisibleN_setText]
  · rw [findVisibleN_setVisibleByName_ne _ _ _ _ h]

lemma applyBulletRow_provides (t : SNode) (items : List String) (i : Nat)
    (hit : items.getD i "" ≠ "")
    (hex : (findTextN t (bulletTextName i)).isSome = true) :
    findTextN (applyBulletRow t items i) (bulletTextName i)
      = some (items.getD i "")
    ∧ ((findVisibleN t (bulletRowName i)).isSome = true →
        findVisibleN (applyBulletRow t items i) (bulletRowName i)
          = some true) := by
  unfold applyBulletRow
  rw [if_pos ⟨hit, hex⟩]
  constructor
  · rw [findTextN_setVisibleByName]
    exact findTextN_setText_eq t _ _ ((setTextN_flag t _ _).symm ▸ hex)
  · intro hrow
    refine findVisibleN_setVisibleByName_some _ _ _ ?_
    rw [findVisibleN_setText]
    exact hrow

lemma applyBulletRow_absent (t : SNode) (items : List String) (i : Nat)
    (hcond : ¬(items.getD i "" ≠ ""
      ∧ (findTextN t (bulletTextName i)).isSome = true)) :
    findTextN (applyBulletRow t items i) (bulletTextName i)
      = findTextN t (bulletTextName i)
    ∧ ((findVisibleN t (bulletRowName i)).isSome = true →
        findVisibleN (applyBulletRow t items i) (bulletRowName i)
          = some false) := by
  unfold applyBulletRow
  rw [if_neg hcond]
  exact ⟨findTextN_setVisibleByName _ _ _ _,
    fun hrow => findVisibleN_setVisibleByName_some _ _ _ hrow⟩

@[simp] lemma findTextN_applyMetricRow_ne (t : SNode) (ms : List GeminiMetric)
    (i : Nat) (nm' : String) (hv : nm' ≠ metricValueName i)
    (hl : nm' ≠ metricLabelName i) :
    findTextN (applyMetricRow t ms i) nm' = findTextN t nm' := by
  unfold applyMetricRow
  rw [findTextN_setTextByName_ne _ _ _ _ hl, findTextN_setTextByName_ne _ _ _ _ hv]

@[simp] lemma findVisibleN_applyMetricRow (t : SNode) (ms : List GeminiMetric)
    (i : Nat) (nm' : String) :
    findVisibleN (applyMetricRow t ms i) nm' = findVisibleN t nm' := by
  unfold applyMetricRow
  rw [findVisibleN_setTextByName, findVisibleN_setTextByName]

lemma applyMetricRow_value_absent (t : SNode) (ms : List GeminiMetric)
    (i : Nat) (hvl : metricValueName i ≠ metricLabelName i)
    (h : (match ms.get? i with | some m => m.value | none => none)
      = (none : Option String)) :
    findTextN (applyMetricRow t ms i) (metricValueName i)
      = findTextN t (metricValueName i) := by
  unfold applyMetricRow
  rw [findTextN_setTextByName_ne _ _ _ _ hvl, h, setTextByName_none]

lemma applyMetricRow_label_absent (t : SNode) (ms : List GeminiMetric)
    (i : Nat) (hlv : metricLabelName i ≠ metricValueName i)
    (h : (match ms.get? i with | some m => m.label | none => none)
      = (none : Option String)) :
    findTextN (applyMetricRow t ms i) (metricLabelName i)
      = findTextN t (metricLabelName i) := by
  unfold applyMetricRow
  rw [h, setTextByName_none, findTextN_setTextByName_ne _ _ _ _ hlv]


/-! ### Concrete spellings of the indexed anchor names -/

@[simp] lemma heroHighlightRowName_0 : heroHighlightRowName 0 = "Hero:Highlight:0" := rfl

@[simp] lemma heroHighlightTextName_0 : heroHighlightTextName 0 = "Hero:Highlight:0:Text" := rfl

@[simp] lemma metricValueName_0 : metricValueName 0 = "HeroMetric:0:Value" := rfl

@[simp] lemma metricLabelName_0 : metricLabelName 0 = "HeroMetric:0:Label" := rfl

@[simp] lemma metricRowName_0 : metricRowName 0 = "HeroMetric:0" := rfl

@[simp] lemma bulletRowName_0 : bulletRowName 0 = "Testimonial:Bullet:0" := rfl

@[simp] lemma bulletTextName_0 : bulletTextName 0 = "Testimonial:Bullet:0:Text" := rfl

@[simp] lemma heroHighlightRowName_1 : heroHighlightRowName 1 = "Hero:Highlight:1" := rfl

@[simp] lemma heroHighlightTextName_1 : heroHighlightTextName 1 = "Hero:Highlight:1:Text" := rfl

@[simp] lemma metricValueName_1 : metricValueName 1 = "HeroMetric:1:Value" := rfl

@[simp] lemma metricLabelName_1 : metricLabelName 1 = "HeroMetric:1:Label" := rfl

@[simp] lemma metricRowName_1 : metricRowName 1 = "HeroMetric:1" := rfl

@[simp] lemma bulletRowName_1 : bulletRowName 1 = "Testimonial:Bullet:1" := rfl

@[simp] lemma bulletTextName_1 : bulletTextName 1 = "Testimonial:Bullet:1:Text" := rfl

@[simp] lemma heroHighlightRowName_2 : heroHighlightRowName 2 = "Hero:Highlight:2" := rfl

@[simp] lemma heroHighlightTextName_2 : heroHighlightTextName 2 = "Hero:Highlight:2:Text" := rfl

@[simp] lemma metricValueName_2 : metricValueName 2 = "HeroMetric:2:Value" := rfl

@[simp] lemma metricLabelName_2 : metricLabelName 2 = "HeroMetric:2:Label" := rfl

@[simp] lemma metricRowName_2 : metricRowName 2 = "HeroMetric:2" := rfl

@[simp] lemma bulletRowName_2 : bulletRowName 2 = "Testimonial:Bullet:2" := rfl

@[simp] lemma bulletTextName_2 : bulletTextName 2 = "Testimonial:Bullet:2:Text" := rfl


/-- **C4.** For every repeatable-row index `i < 3`, in both row families
(hero highlights and testimonial bullets): when the payload provides a
(truthy) item at `i` and the text anchor exists, the anchor's text is set
to the item and the row container (when present) is marked visible;
otherwise the row container is marked hidden and the text anchor is left
unchanged. -/
theorem applyGemini_highlight_rows (t : SNode) (content : GeminiSiteContent)
    (i : Nat) (hi : i < 3) :
    ((((content.hero.getD emptyHero).highlights.getD []).getD i "" ≠ ""
        ∧ (findTextN t (heroHighlightTextName i)).isSome = true) →
      findTextN (applyGeminiContent t content) (heroHighlightTextName i)
        = some (((content.hero.getD emptyHero).highlights.getD []).getD i "")
      ∧ ((findVisibleN t (heroHighlightRowName i)).isSome = true →
          findVisibleN (applyGeminiContent t content) (heroHighlightRowName i)
            = some true))
    ∧ (¬(((content.hero.getD emptyHero).highlights.getD []).getD i "" ≠ ""
        ∧ (findTextN t (heroHighlightTextName i)).isSome = true) →
      ((findVisibleN t (heroHighlightRowName i)).isSome = true →
          findVisibleN (applyGeminiContent t content) (heroHighlightRowName i)
            = some false)
      ∧ findTextN (applyGeminiContent t content) (heroHighlightTextName i)
        = findTextN t (heroHighlightTextName i))
    ∧ ((((content.testimonial.getD emptyTestimonial).bullets.getD []).getD i "" ≠ ""
        ∧ (findTextN t (bulletTextName i)).isSome = true) →
      findTextN (applyGeminiContent t content) (bulletTextName i)
        = some (((content.testimonial.getD emptyTestimonial).bullets.getD []).getD i "")
      ∧ ((findVisibleN t (bulletRowName i)).isSome = true →
          findVisibleN (applyGeminiContent t content) (bulletRowName i)
            = some true))
    ∧ (¬(((content.testimonial.getD emptyTestimonial).bullets.getD []).getD i "" ≠ ""
        ∧ (findTextN t (bulletTextName i)).isSome = true) →
      ((findVisibleN t (bulletRowName i)).isSome = true →
          findVisibleN (applyGeminiContent t content) (bulletRowName i)
            = some false)
      ∧ findTextN (applyGeminiContent t content) (bulletTextName i)
        = findTextN t (bulletTextName i)) := by
  interval_cases i
  · refine ⟨?_, ?_, ?_, ?_⟩
    · rintro ⟨h1, h2⟩
      constructor
      · simp only [applyGeminiContent]
        simp
        rw [← List.getD_eq_getElem?_getD]
        refine (applyHighlightRow_provides _ _ _ h1 ?_).1
        simpa using h2
      · intro hrow
        simp only [applyGeminiContent]
        simp
        refine (applyHighlightRow_provides _ _ _ h1 ?_).2 ?_
        · simpa using h2
        · simpa using hrow
    · intro hc
      constructor
      · intro hrow
        simp only [applyGeminiContent]
        simp
        refine (applyHighlightRow_absent _ _ _ ?_).2 ?_
        · simpa using hc
        · simpa using hrow
      · simp only [applyGeminiContent]
        simp
        refine Eq.trans ((applyHighlightRow_absent _ _ _ ?_).1) ?_
        · simpa using hc
        · simp
    · rintro ⟨h1, h2⟩
      constructor
      · simp only [applyGeminiContent]
        simp
        rw [← List.getD_eq_getElem?_getD]
        refine (applyBulletRow_provides _ _ _ h1 ?_).1
        simpa using h2
      · intro hrow
        simp only [applyGeminiContent]
        simp
        refine (applyBulletRow_provides _ _ _ h1 ?_).2 ?_
        · simpa using h2
        · simpa using hrow
    · intro hc
      constructor
      · intro hrow
        simp only [applyGeminiContent]
        simp
        refine (applyBulletRow_absent _ _ _ ?_).2 ?_
        · simpa using hc
        · simpa using hrow
      · simp only [applyGeminiContent]
        simp
        refine Eq.trans ((applyBulletRow_absent _ _ _ ?_).1) ?_
        · simpa using hc
        · simp
  · refine ⟨?_, ?_, ?_, ?_⟩
    · rintro ⟨h1, h2⟩
      constructor
      · simp only [applyGeminiContent]
        simp
        rw [← List.getD_eq_getElem?_getD]
        refine (applyHighlightRow_provides _ _ _ h1 ?_).1
        simpa using h2
      · intro hrow
        simp only [applyGeminiContent]
        simp
        refine (applyHighlightRow_provides _ _ _ h1 ?_).2 ?_
        · simpa using h2
        · simpa using hrow
    · intro hc
      constructor
      · intro hrow
        simp only [applyGeminiContent]
        simp
        refine (applyHighlightRow_absent _ _ _ ?_).2 ?_
        · simpa using hc
        · simpa using hrow
      · simp only [applyGeminiContent]
        simp
        refine Eq.trans ((applyHighlightRow_absent _ _ _ ?_).1) ?_
        · simpa using hc
        · simp
    · rintro ⟨h1, h2⟩
      constructor
      · simp only [applyGeminiContent]
        simp
        rw [← List.getD_eq_getElem?_getD]
        refine (applyBulletRow_provides _ _ _ h1 ?_).1
        simpa using h2
      · intro hrow
        simp only [applyGeminiContent]
        simp
        refine (applyBulletRow_provides _ _ _ h1 ?_).2 ?_
        · simpa using h2
        · simpa using hrow
    · intro hc
      constructor
      · intro hrow
        simp only [applyGeminiContent]
        simp
        refine (applyBulletRow_absent _ _ _ ?_).2 ?_
        · simpa using hc
        · simpa using hrow
      · simp only [applyGeminiContent]
        simp
        refine Eq.trans ((applyBulletRow_absent _ _ _ ?_).1) ?_
        · simpa using hc
        · simp
  · refine ⟨?_, ?_, ?_, ?_⟩
    · rintro ⟨h1, h2⟩
      constructor
      · simp only [applyGeminiContent]
        simp
        rw [← List.getD_eq_getElem?_getD]
        refine (applyHighlightRow_provides _ _ _ h1 ?_).1
        simpa using h2
      · intro hrow
        simp only [applyGeminiContent]
        simp
        refine (applyHighlightRow_provides _ _ _ h1 ?_).2 ?_
        · simpa using h2
        · simpa using hrow
    · intro hc
      constructor
      · intro hrow
        simp only [applyGeminiContent]
        simp
        refine (applyHighlightRow_absent _ _ _ ?_).2 ?_
        · simpa using hc
        · simpa using hrow
      · simp only [applyGeminiContent]
        simp
        refine Eq.trans ((applyHighlightRow_absent _ _ _ ?_).1) ?_
        · simpa using hc
        · simp
    · rintro ⟨h1, h2⟩
      constructor
      · simp only [applyGeminiContent]
        simp
        rw [← List.getD_eq_getElem?_getD]
        refine (applyBulletRow_provides _ _ _ h1 ?_).1
        simpa using h2
      · intro hrow
        simp only [applyGeminiContent]
        simp
        refine (applyBulletRow_provides _ _ _ h1 ?_).2 ?_
        · simpa using h2
        · simpa using hrow
    · intro hc
      constructor
      · intro hrow
        simp only [applyGeminiContent]
        simp
        refine (applyBulletRow_absent _ _ _ ?_).2 ?_
        · simpa using hc
        · simpa using hrow
      · simp only [applyGeminiContent]
        simp
        refine Eq.trans ((applyBulletRow_absent _ _ _ ?_).1) ?_
        · simpa using hc
        · simp


/-- **C3.** Two builds of the scene graph from any two host-allocator
states produce identical anchor-name sets and identical topology (node
identities aside): the build depends on nothing but the (fixed) schema and
static copy. -/
theorem applyTokensDemo_structural_idempotence (n m : Nat) :
    (∀ s, s ∈ anchorNames (applyTokensDemoN n).1
      ↔ s ∈ anchorNames (applyTokensDemoN m).1)
    ∧ stripIds (applyTokensDemoN n).1 = stripIds (applyTokensDemoN m).1 := by
  have h : anchorNames (applyTokensDemoN n).1
      = anchorNames (applyTokensDemoN m).1 := rfl
  exact ⟨fun s => by rw [h], rfl⟩

/-- A payload carrying only `hero.highlights = ["A", "B"]`. -/
def payloadAB : GeminiSiteContent :=
  ⟨some ⟨none, none, none, none, none, some ["A", "B"]⟩, none, none, none⟩

/-- A payload carrying only `testimonial.bullets = ["P"]`. -/
def payloadBulletP : GeminiSiteContent :=
  ⟨none, none, some ⟨none, none, none, some ["P"], none, none, none⟩, none⟩

/-- Witness for C4: applying `hero.highlights = ["A","B"]` to a freshly
built landing leaves highlight rows 0 and 1 visible with texts "A" and "B"
and hides row 2; applying `testimonial.bullets = ["P"]` leaves bullet row 0
visible with text "P" and hides bullet row 1. -/
theorem applyGemini_highlight_rows_witness :
    findTextN (applyGeminiContent (applyTokensDemoN 0).1 payloadAB)
      (heroHighlightTextName 0) = some "A"
    ∧ findVisibleN (applyGeminiContent (applyTokensDemoN 0).1 payloadAB)
      (heroHighlightRowName 0) = some true
    ∧ findTextN (applyGeminiContent (applyTokensDemoN 0).1 payloadAB)
      (heroHighlightTextName 1) = some "B"
    ∧ findVisibleN (applyGeminiContent (applyTokensDemoN 0).1 payloadAB)
      (heroHighlightRowName 1) = some true
    ∧ findVisibleN (applyGeminiContent (applyTokensDemoN 0).1 payloadAB)
      (heroHighlightRowName 2) = some false
    ∧ findTextN (applyGeminiContent (applyTokensDemoN 0).1 payloadBulletP)
      (bulletTextName 0) = some "P"
    ∧ findVisibleN (applyGeminiContent (applyTokensDemoN 0).1 payloadBulletP)
      (bulletRowName 0) = some true
    ∧ findVisibleN (applyGeminiContent (applyTokensDemoN 0).1 payloadBulletP)
      (bulletRowName 1) = some false := by
  have h0 := applyGemini_highlight_rows (applyTokensDemoN 0).1 payloadAB 0 (by decide)
  have h1 := applyGemini_highlight_rows (applyTokensDemoN 0).1 payloadAB 1 (by decide)
  have h2 := applyGemini_highlight_rows (applyTokensDemoN 0).1 payloadAB 2 (by decide)
  have b0 := applyGemini_highlight_rows (applyTokensDemoN 0).1 payloadBulletP 0 (by decide)
  have b1 := applyGemini_highlight_rows (applyTokensDemoN 0).1 payloadBulletP 1 (by decide)
  refine ⟨?_, ?_, ?_, ?_, ?_, ?_, ?_, ?_⟩
  · exact (h0.1 ⟨by decide, by rfl⟩).1
  · exact (h0.1 ⟨by decide, by rfl⟩).2 (by rfl)
  · exact (h1.1 ⟨by decide, by rfl⟩).1
  · exact (h1.1 ⟨by decide, by rfl⟩).2 (by rfl)
  · exact (h2.2.1 (by decide)).1 (by rfl)
  · exact (b0.2.2.1 ⟨by decide, by rfl⟩).1
  · exact (b0.2.2.1 ⟨by decide, by rfl⟩).2 (by rfl)
  · exact (b1.2.2.2 (by decide)).1 (by rfl)


/-- **C5.** For every metric index `i < 3`: applying any payload never
changes the visibility of metric row `i`, and when the payload's value or
label at `i` is absent the corresponding text anchor's prior text is left
unchanged. -/
theorem applyGemini_metric_rows (t : SNode) (content : GeminiSiteContent)
    (i : Nat) (hi : i < 3) :
    findVisibleN (applyGeminiContent t content) (metricRowName i)
      = findVisibleN t (metricRowName i)
    ∧ ((match (content.metrics.getD []).get? i with
        | some m => m.value | none => none) = (none : Option String) →
      findTextN (applyGeminiContent t content) (metricValueName i)
        = findTextN t (metricValueName i))
    ∧ ((match (content.metrics.getD []).get? i with
        | some m => m.label | none => none) = (none : Option String) →
      findTextN (applyGeminiContent t content) (metricLabelName i)
        = findTextN t (metricLabelName i)) := by
  interval_cases i
  · refine ⟨?_, ?_, ?_⟩
    · simp only [applyGeminiContent]
      simp
    · intro hv
      simp only [applyGeminiContent]
      simp
      refine Eq.trans (applyMetricRow_value_absent _ _ _ (by decide) ?_) ?_
      · simpa using hv
      · simp
    · intro hl
      simp only [applyGeminiContent]
      simp
      refine Eq.trans (applyMetricRow_label_absent _ _ _ (by decide) ?_) ?_
      · simpa using hl
      · simp
  · refine ⟨?_, ?_, ?_⟩
    · simp only [applyGeminiContent]
      simp
    · intro hv
      simp only [applyGeminiContent]
      simp
      refine Eq.trans (applyMetricRow_value_absent _ _ _ (by decide) ?_) ?_
      · simpa using hv
      · simp
    · intro hl
      simp only [applyGeminiContent]
      simp
      refine Eq.trans (applyMetricRow_label_absent _ _ _ (by decide) ?_) ?_
      · simpa using hl
      · simp
  · refine ⟨?_, ?_, ?_⟩
    · simp only [applyGeminiContent]
      simp
    · intro hv
      simp only [applyGeminiContent]
      simp
      refine Eq.trans (applyMetricRow_value_absent _ _ _ (by decide) ?_) ?_
      · simpa using hv
      · simp
    · intro hl
      simp only [applyGeminiContent]
      simp
      refine Eq.trans (applyMetricRow_label_absent _ _ _ (by decide) ?_) ?_
      · simpa using hl
      · simp

/-- A payload carrying only `metrics = [{value: "72%"}]`. -/
def payload72 : GeminiSiteContent :=
  ⟨none, some [⟨some "72%", none⟩], none, none⟩

/-- Witness for C5: applying `metrics = [{value:"72%"}]` to a freshly built
landing keeps all three metric rows visible and leaves the prior value and
label texts of rows 1 and 2 unchanged. -/
theorem applyGemini_metric_rows_witness :
    findVisibleN (applyGeminiContent (applyTokensDemoN 0).1 payload72)
      (metricRowName 0) = some true
    ∧ findVisibleN (applyGeminiContent (applyTokensDemoN 0).1 payload72)
      (metricRowName 1) = some true
    ∧ findVisibleN (applyGeminiContent (applyTokensDemoN 0).1 payload72)
      (metricRowName 2) = some true
    ∧ findTextN (applyGeminiContent (applyTokensDemoN 0).1 payload72)
      (metricValueName 1) = some "2x"
    ∧ findTextN (applyGeminiContent (applyTokensDemoN 0).1 payload72)
      (metricLabelName 1) = some "Lebih cepat menyiapkan handoff"
    ∧ findTextN (applyGeminiContent (applyTokensDemoN 0).1 payload72)
      (metricValueName 2) = some "5 menit"
    ∧ findTextN (applyGeminiContent (applyTokensDemoN 0).1 payload72)
      (metricLabelName 2) = some "Update dokumen developer otomatis" := by
  have h0 := applyGemini_metric_rows (applyTokensDemoN 0).1 payload72 0 (by decide)
  have h1 := applyGemini_metric_rows (applyTokensDemoN 0).1 payload72 1 (by decide)
  have h2 := applyGemini_metric_rows (applyTokensDemoN 0).1 payload72 2 (by decide)
  refine ⟨?_, ?_, ?_, ?_, ?_, ?_, ?_⟩
  · exact Eq.trans h0.1 (by rfl)
  · exact Eq.trans h1.1 (by rfl)
  · exact Eq.trans h2.1 (by rfl)
  · exact Eq.trans (h1.2.1 (by decide)) (by rfl)
  · exact Eq.trans (h1.2.2 (by decide)) (by rfl)
  · exact Eq.trans (h2.2.1 (by decide)) (by rfl)
  · exact Eq.trans (h2.2.2 (by decide)) (by rfl)

/-- The fifteen non-repeatable text writes of `applyGeminiContent`, in
source order: each anchor name paired with the payload field written to it
through `setText`. -/
def nonRepeatableWrites (content : GeminiSiteContent) :
    List (String × Option String) :=
  [("Hero:Heading", (content.hero.getD emptyHero).title),
   ("Hero:Subheading", (content.hero.getD emptyHero).subtitle),
   ("HeroCTA:Primary:Label", (content.hero.getD emptyHero).primaryCta),
   ("HeroCTA:Secondary:Label", (content.hero.getD emptyHero).secondaryCta),
   ("Hero:Assurance", (content.hero.getD emptyHero).assurance),
   ("Testimonial:Heading", (content.testimonial.getD emptyTestimonial).heading),
   ("Testimonial:Subtitle", (content.testimonial.getD emptyTestimonial).subtitle),
   ("Testimonial:Quote", (content.testimonial.getD emptyTestimonial).quote),
   ("Testimonial:Attribution", (content.testimonial.getD emptyTestimonial).attribution),
   ("Testimonial:AttributionRole", (content.testimonial.getD emptyTestimonial).attributionRole),
   ("Testimonial:Callout", (content.testimonial.getD emptyTestimonial).callout),
   ("CTA:Heading", (content.cta.getD emptyCta).title),
   ("CTA:Body", (content.cta.getD emptyCta).subtitle),
   ("CTA:PrimaryLabel", (content.cta.getD emptyCta).primaryCta),
   ("CTA:SecondaryLabel", (content.cta.getD emptyCta).secondaryCta)]

/-- **C10.** Empty-string payload values are treated asymmetrically: every
one of the fifteen non-repeatable text fields set to `""` counts as present
and overwrites its anchor's text with `""` (only null/undefined are
no-ops), whereas for every repeatable-row index `i < 3` an empty-string
item — highlight or bullet alike — counts as absent: the row container is
hidden and its text anchor is not modified. -/
theorem applyGemini_empty_string_asymmetry :
    (∀ (t : SNode) (content : GeminiSiteContent) (k : Nat),
      k < (nonRepeatableWrites content).length →
      ((nonRepeatableWrites content).getD k ("", none)).2 = some "" →
      (findTextN t ((nonRepeatableWrites content).getD k ("", none)).1).isSome
        = true →
      findTextN (applyGeminiContent t content)
        ((nonRepeatableWrites content).getD k ("", none)).1 = some "")
    ∧ (∀ (t : SNode) (content : GeminiSiteContent) (i : Nat), i < 3 →
      (((content.hero.getD emptyHero).highlights.getD []).getD i "" = "" →
        ((findVisibleN t (heroHighlightRowName i)).isSome = true →
          findVisibleN (applyGeminiContent t content) (heroHighlightRowName i)
            = some false)
        ∧ findTextN (applyGeminiContent t content) (heroHighlightTextName i)
          = findTextN t (heroHighlightTextName i))
      ∧ (((content.testimonial.getD emptyTestimonial).bullets.getD []).getD i "" = "" →
        ((findVisibleN t (bulletRowName i)).isSome = true →
          findVisibleN (applyGeminiContent t content) (bulletRowName i)
            = some false)
        ∧ findTextN (applyGeminiContent t content) (bulletTextName i)
          = findTextN t (bulletTextName i))) := by
  constructor
  · intro t content k hk h hex
    have hk15 : k < 15 := by simpa [nonRepeatableWrites] using hk
    interval_cases k
    all_goals (
      simp only [nonRepeatableWrites, List.getD_cons_zero, List.getD_cons_succ]
        at h hex ⊢;
      simp only [applyGeminiContent];
      try simp;
      rw [h];
      refine findTextN_setTextByName_some _ _ "" ?_;
      simpa using hex)
  · intro t content i hi
    constructor
    · intro hempty
      have hc : ¬(((content.hero.getD emptyHero).highlights.getD []).getD i "" ≠ ""
          ∧ (findTextN t (heroHighlightTextName i)).isSome = true) :=
        fun hand => hand.1 hempty
      interval_cases i
      · constructor
        · intro hrow
          simp only [applyGeminiContent]
          simp
          refine (applyHighlightRow_absent _ _ _ ?_).2 ?_
          · simpa using hc
          · simpa using hrow
        · simp only [applyGeminiContent]
          simp
          refine Eq.trans ((applyHighlightRow_absent _ _ _ ?_).1) ?_
          · simpa using hc
          · simp
      · constructor
        · intro hrow
          simp only [applyGeminiContent]
          simp
          refine (applyHighlightRow_absent _ _ _ ?_).2 ?_
          · simpa using hc
          · simpa using hrow
        · simp only [applyGeminiContent]
          simp
          refine Eq.trans ((applyHighlightRow_absent _ _ _ ?_).1) ?_
          · simpa using hc
          · simp
      · constructor
        · intro hrow
          simp only [applyGeminiContent]
          simp
          refine (applyHighlightRow_absent _ _ _ ?_).2 ?_
          · simpa using hc
          · simpa using hrow
        · simp only [applyGeminiContent]
          simp
          refine Eq.trans ((applyHighlightRow_absent _ _ _ ?_).1) ?_
          · simpa using hc
          · simp
    · intro hempty
      have hc : ¬(((content.testimonial.getD emptyTestimonial).bullets.getD []).getD i "" ≠ ""
          ∧ (findTextN t (bulletTextName i)).isSome = true) :=
        fun hand => hand.1 hempty
      interval_cases i
      · constructor
        · intro hrow
          simp only [applyGeminiContent]
          simp
          refine (applyBulletRow_absent _ _ _ ?_).2 ?_
          · simpa using hc
          · simpa using hrow
        · simp only [applyGeminiContent]
          simp
          refine Eq.trans ((applyBulletRow_absent _ _ _ ?_).1) ?_
          · simpa using hc
          · simp
      · constructor
        · intro hrow
          simp only [applyGeminiContent]
          simp
          refine (applyBulletRow_absent _ _ _ ?_).2 ?_
          · simpa using hc
          · simpa using hrow
        · simp only [applyGeminiContent]
          simp
          refine Eq.trans ((applyBulletRow_absent _ _ _ ?_).1) ?_
          · simpa using hc
          · simp
      · constructor
        · intro hrow
          simp only [applyGeminiContent]
          simp
          refine (applyBulletRow_absent _ _ _ ?_).2 ?_
          · simpa using hc
          · simpa using hrow
        · simp only [applyGeminiContent]
          simp
          refine Eq.trans ((applyBulletRow_absent _ _ _ ?_).1) ?_
          · simpa using hc
          · simp


/-- A payload with a `""` title, a `""` first highlight and a `""` first
testimonial bullet. -/
def payloadEmptyStrings : GeminiSiteContent :=
  ⟨some ⟨some "", none, none, none, none, some ["", "x", "y"]⟩, none,
   some ⟨none, none, none, some ["", "q"], none, none, none⟩, none⟩

/-- Witness for C10: at the built landing, a `""` title overwrites
`Hero:Heading` with `""`, while `""` highlight and bullet items hide their
rows and leave the text anchors unchanged. -/
theorem applyGemini_empty_string_asymmetry_witness :
    findTextN (applyGeminiContent (applyTokensDemoN 0).1 payloadEmptyStrings)
      "Hero:Heading" = some ""
    ∧ findVisibleN (applyGeminiContent (applyTokensDemoN 0).1 payloadEmptyStrings)
      (heroHighlightRowName 0) = some false
    ∧ findTextN (applyGeminiContent (applyTokensDemoN 0).1 payloadEmptyStrings)
      (heroHighlightTextName 0)
      = findTextN (applyTokensDemoN 0).1 (heroHighlightTextName 0)
    ∧ findVisibleN (applyGeminiContent (applyTokensDemoN 0).1 payloadEmptyStrings)
      (bulletRowName 0) = some false
    ∧ findTextN (applyGeminiContent (applyTokensDemoN 0).1 payloadEmptyStrings)
      (bulletTextName 0)
      = findTextN (applyTokensDemoN 0).1 (bulletTextName 0) := by
  refine ⟨?_, ?_, ?_, ?_, ?_⟩
  · exact applyGemini_empty_string_asymmetry.1 _ payloadEmptyStrings 0
      (by decide) (by rfl) (by rfl)
  · exact ((applyGemini_empty_string_asymmetry.2 _ payloadEmptyStrings 0
      (by decide)).1 (by decide)).1 (by rfl)
  · exact ((applyGemini_empty_string_asymmetry.2 _ payloadEmptyStrings 0
      (by decide)).1 (by decide)).2
  · exact ((applyGemini_empty_string_asymmetry.2 _ payloadEmptyStrings 0
      (by decide)).2 (by decide)).1 (by rfl)
  · exact ((applyGemini_empty_string_asymmetry.2 _ payloadEmptyStrings 0
      (by decide)).2 (by decide)).2


/-! ## Generation Orchestrator (`handleGenerateAiSite`, `requestGeminiContent`,
`parseGeminiJson` in the plugin main module)

The network call and `JSON.parse` are platform boundaries: the HTTP outcome
is an input of the model, and `JSON.parse` is an abstract parameter
(`jsonParse`, `none` modelling a parse exception).  The observable outcome
is the final status update, the canvas, and whether the network was
reached. -/

/-- One `parts[]` entry of a candidate: `some` text when
`typeof part.text === 'string'`. -/
abbrev GeminiPartM := Option String

/-- `candidate.content`, with its optional `parts` array. -/
structure GeminiContentM where
  parts : Option (List GeminiPartM)

/-- One entry of `data.candidates`. -/
structure GeminiCandidateM where
  content : Option GeminiContentM

/-- The JSON body of a successful provider response. -/
structure GeminiResponseM where
  candidates : Option (List GeminiCandidateM)

/-- JS `String.prototype.trim()` over the regex whitespace class. -/
def jsTrim (s : String) : String :=
  String.mk (((s.data.dropWhile isWsChar).reverse.dropWhile isWsChar).reverse)

/-- The response-text concatenation: all `parts[].text` of the first
candidate (missing text contributing `''`), joined with newlines, trimmed. -/
def rawTextOf (data : GeminiResponseM) : String :=
  match data.candidates with
  | some (c :: _) =>
    let parts := match c.content with
      | some ct => ct.parts.getD []
      | none => []
    jsTrim (String.intercalate "\n" (parts.map (fun p => p.getD "")))
  | _ => ""

/-- `rawText.match(/\{[\s\S]*\}/)`: the leftmost `{` through the rightmost
`}`, when the `{` comes first. -/
def braceRegion (s : String) : Option String :=
  match s.data.findIdx? (· = '{'), s.data.reverse.findIdx? (· = '}') with
  | some i, some k =>
    let j := s.data.length - 1 - k
    if i < j then some (String.mk ((s.data.drop i).take (j - i + 1))) else none
  | _, _ => none

/-- `parseGeminiJson(rawText)`: extract the brace region and parse it,
converting failures into the two fixed error messages. -/
def parseGeminiJson (jsonParse : String → Option GeminiSiteContent)
    (rawText : String) : Except String GeminiSiteContent :=
  match braceRegion rawText with
  | none => .error "Gemini tidak menghasilkan JSON yang valid."
  | some sub =>
    match jsonParse sub with
    | some c => .ok c
    | none => .error "Gagal mem-parsing JSON dari Gemini."

/-- Outcome of the single provider `fetch`: a non-ok HTTP status (with the
body's `error.message` when parseable, else the status text) or an ok JSON
body. -/
inductive FetchOutcome where
  | httpError (errorMessage : Option String) (statusText : String)
  | ok (data : GeminiResponseM)

/-- `requestGeminiContent` after the fetch resolves: error propagation,
empty-content check, JSON extraction. -/
def requestGeminiContent (jsonParse : String → Option GeminiSiteContent)
    (resp : FetchOutcome) : Except String GeminiSiteContent :=
  match resp with
  | .httpError msg statusText =>
    .error (msg.getD ("Gemini API error: " ++ statusText))
  | .ok data =>
    if rawTextOf data = "" then .error "Gemini tidak mengembalikan konten."
    else parseGeminiJson jsonParse (rawTextOf data)

/-- The observable outcome of one `generate-ai-site` command: the final
status update, the canvas contents, the allocator counter, and whether the
provider was contacted. -/
structure GenerationResult where
  status : String
  statusText : String
  canvas : List SNode
  counter : Nat
  networkCalled : Bool

/-- `!GEMINI_API_KEY`: the credential is configured when present and
non-empty. -/
def keyConfigured (key : Option String) : Bool :=
  match key with
  | some k => k ≠ ""
  | none => false

/-- `handleGenerateAiSite(prompt)`: prompt validation, credential check,
provider call, build, apply — with the canvas threaded explicitly
(`applyTokensDemo` appends the landing to the current page and
`applyGeminiContent` then mutates it in place). -/
def handleGenerateAiSite (key : Option String)
    (jsonParse : String → Option GeminiSiteContent) (prompt : Option String)
    (resp : FetchOutcome) (canvas : List SNode) (counter : Nat) :
    GenerationResult :=
  match prompt with
  | none => ⟨"error", "Masukkan prompt yang jelas untuk Gemini.", canvas, counter, false⟩
  | some p =>
    if jsTrim p = "" then
      ⟨"error", "Masukkan prompt yang jelas untuk Gemini.", canvas, counter, false⟩
    else if keyConfigured key = false then
      ⟨"error", "Konfigurasi Gemini API belum tersedia (VITE_GEMINI_API_KEY).", canvas, counter, false⟩
    else
      match requestGeminiContent jsonParse resp with
      | .error msg => ⟨"error", msg, canvas, counter, true⟩
      | .ok siteContent =>
        ⟨"success", "Website selesai digenerate di kanvas.",
         canvas ++ [applyGeminiContent (applyTokensDemoN counter).1 siteContent],
         (applyTokensDemoN counter).2, true⟩

/-- The fixed ContentFormatError-class messages: missing content, no brace
region, or a parse failure. -/
def contentFormatMessages : List String :=
  ["Gemini tidak mengembalikan konten.",
   "Gemini tidak menghasilkan JSON yang valid.",
   "Gagal mem-parsing JSON dari Gemini."]

/-- **C6.** A provider response whose concatenated text has no brace region,
or whose extracted region fails to parse, drives the orchestrator to the
`error` status with a ContentFormatError-class message, and no scene
mutation occurs: the canvas and allocator are untouched (the build happens
only after a successful parse). -/
theorem orchestrator_content_format_error (key : Option String)
    (jsonParse : String → Option GeminiSiteContent) (p : String)
    (data : GeminiResponseM) (canvas : List SNode) (counter : Nat)
    (hp : jsTrim p ≠ "") (hk : keyConfigured key = true)
    (hfail : braceRegion (rawTextOf data) = none
      ∨ ∃ sub, braceRegion (rawTextOf data) = some sub ∧ jsonParse sub = none) :
    (handleGenerateAiSite key jsonParse (some p) (.ok data) canvas counter).status
      = "error"
    ∧ (handleGenerateAiSite key jsonParse (some p) (.ok data) canvas counter).statusText
      ∈ contentFormatMessages
    ∧ (handleGenerateAiSite key jsonParse (some p) (.ok data) canvas counter).canvas
      = canvas
    ∧ (handleGenerateAiSite key jsonParse (some p) (.ok data) canvas counter).counter
      = counter := by
  have hreq : ∃ msg, requestGeminiContent jsonParse (.ok data) = .error msg
      ∧ msg ∈ contentFormatMessages := by
    simp only [requestGeminiContent]
    by_cases hempty : rawTextOf data = ""
    · exact ⟨_, by rw [if_pos hempty], by simp [contentFormatMessages]⟩
    · rw [if_neg hempty]
      unfold parseGeminiJson
      cases hbr : braceRegion (rawTextOf data) with
      | none => exact ⟨_, rfl, by simp [contentFormatMessages]⟩
      | some sub =>
        cases hfail with
        | inl h => exact absurd hbr (h ▸ by simp)
        | inr h =>
          obtain ⟨sub', hsub', hparse⟩ := h
          rw [hbr] at hsub'
          obtain rfl : sub = sub' := by
            simpa using hsub'
          refine ⟨"Gagal mem-parsing JSON dari Gemini.", ?_, by simp [contentFormatMessages]⟩
          simp [hparse]
  obtain ⟨msg, hmsg, hmem⟩ := hreq
  have hred : handleGenerateAiSite key jsonParse (some p) (.ok data) canvas counter
      = ⟨"error", msg, canvas, counter, true⟩ := by
    simp [handleGenerateAiSite, hp, hk, hmsg]
  rw [hred]
  exact ⟨rfl, hmem, rfl, rfl⟩

/-- Witness for C6 at a concrete non-JSON provider response. -/
theorem orchestrator_content_format_error_witness :
    (handleGenerateAiSite (some "k") (fun _ => none) (some "buat landing page")
        (.ok ⟨some [⟨some ⟨some [some "tidak ada json di sini"]⟩⟩]⟩) [] 0).status
      = "error"
    ∧ (handleGenerateAiSite (some "k") (fun _ => none) (some "buat landing page")
        (.ok ⟨some [⟨some ⟨some [some "tidak ada json di sini"]⟩⟩]⟩) [] 0).statusText
      ∈ contentFormatMessages
    ∧ (handleGenerateAiSite (some "k") (fun _ => none) (some "buat landing page")
        (.ok ⟨some [⟨some ⟨some [some "tidak ada json di sini"]⟩⟩]⟩) [] 0).canvas
      = []
    ∧ (handleGenerateAiSite (some "k") (fun _ => none) (some "buat landing page")
        (.ok ⟨some [⟨some ⟨some [some "tidak ada json di sini"]⟩⟩]⟩) [] 0).counter
      = 0 :=
  orchestrator_content_format_error (some "k") (fun _ => none)
    "buat landing page" ⟨some [⟨some ⟨some [some "tidak ada json di sini"]⟩⟩]⟩
    [] 0 (by decide) (by decide) (Or.inl (by decide))

/-- **C7.** An empty, whitespace-only or non-string prompt, and likewise a
missing provider credential, drive the orchestrator straight to the `error`
status: no network call is issued and the canvas is untouched. -/
theorem orchestrator_validation_no_network (key : Option String)
    (jsonParse : String → Option GeminiSiteContent) (prompt : Option String)
    (resp : FetchOutcome) (canvas : List SNode) (counter : Nat)
    (h : prompt = none ∨ (∃ p, prompt = some p ∧ jsTrim p = "")
      ∨ keyConfigured key = false) :
    (handleGenerateAiSite key jsonParse prompt resp canvas counter).status
      = "error"
    ∧ (handleGenerateAiSite key jsonParse prompt resp canvas counter).networkCalled
      = false
    ∧ (handleGenerateAiSite key jsonParse prompt resp canvas counter).canvas
      = canvas := by
  rcases h with h | ⟨p, rfl, hp⟩ | h
  · subst h
    exact ⟨rfl, rfl, rfl⟩
  · have hred : handleGenerateAiSite key jsonParse (some p) resp canvas counter
        = ⟨"error", "Masukkan prompt yang jelas untuk Gemini.", canvas, counter, false⟩ := by
      simp [handleGenerateAiSite, hp]
    rw [hred]
    exact ⟨rfl, rfl, rfl⟩
  · cases prompt with
    | none => exact ⟨rfl, rfl, rfl⟩
    | some p =>
      by_cases hp : jsTrim p = ""
      · have hred : handleGenerateAiSite key jsonParse (some p) resp canvas counter
            = ⟨"error", "Masukkan prompt yang jelas untuk Gemini.", canvas, counter, false⟩ := by
          simp [handleGenerateAiSite, hp]
        rw [hred]
        exact ⟨rfl, rfl, rfl⟩
      · have hred : handleGenerateAiSite key jsonParse (some p) resp canvas counter
            = ⟨"error", "Konfigurasi Gemini API belum tersedia (VITE_GEMINI_API_KEY).", canvas, counter, false⟩ := by
          simp [handleGenerateAiSite, hp, h]
        rw [hred]
        exact ⟨rfl, rfl, rfl⟩

/-- Witness for C7 at a whitespace-only prompt and at a missing key. -/
theorem orchestrator_validation_no_network_witness :
    (handleGenerateAiSite (some "k") (fun _ => none) (some "   ")
        (.httpError none "500") [] 0).networkCalled = false
    ∧ (handleGenerateAiSite none (fun _ => none) (some "halo")
        (.httpError none "500") [] 0).status = "error" :=
  ⟨(orchestrator_validation_no_network (some "k") (fun _ => none) (some "   ")
      (.httpError none "500") [] 0 (Or.inr (Or.inl ⟨"   ", rfl, by decide⟩))).2.1,
   (orchestrator_validation_no_network none (fun _ => none) (some "halo")
      (.httpError none "500") [] 0 (Or.inr (Or.inr (by decide)))).1⟩

end Refigma
